import Mathlib

/-!
# A verification model of the `nba_agent` repository

Shallow embedding of the repository's data gateway (`tools.py`, `data.py`),
response cache (`cache.py`), specialist agents (`agents.py`) and coordinator
(`coordinator.py`).  External effects are modelled explicitly:

* the wall clock is an `Int` (seconds); `datetime.timedelta(hours = h)` is
  `h * 3600` seconds;
* Python dictionaries are insertion-ordered association lists where the most
  recent binding for a key wins;
* Python floats carried inside stat payloads are abstracted as `Int` (the
  modelled code never performs arithmetic on them, it only stores and copies
  them);
* a raised Python exception is an `Except.error` carrying a message; code that
  cannot raise in the model returns a plain value;
* calls to external services (the completion backend, Wikipedia, the stats
  API, the vector store) are oracles supplied in an environment record.
-/

namespace NbaAgent

/-! ## Python string primitives

Kernel-computable models of the Python string operations the code uses
(`str.lower`, `str.strip`, the `in` containment test), defined by structural
recursion over the character list so that concrete witnesses evaluate. -/

/-- Python `str.lower()`. -/
def pyLower (s : String) : String := ⟨s.data.map Char.toLower⟩

/-- Python `str.strip()`. -/
def pyStrip (s : String) : String :=
  ⟨((s.data.dropWhile Char.isWhitespace).reverse.dropWhile Char.isWhitespace).reverse⟩

/-- `leadsWith p l` is true when `p` heads `l`. -/
def leadsWith : List Char → List Char → Bool
  | [], _ => true
  | _ :: _, [] => false
  | a :: p, b :: l => a == b && leadsWith p l

/-- `occursIn p l` is true when `p` occurs contiguously inside `l`. -/
def occursIn (p : List Char) : List Char → Bool
  | [] => p.isEmpty
  | b :: l => leadsWith p (b :: l) || occursIn p l

/-- Python `sub in s`. -/
def pyContains (s sub : String) : Bool := occursIn sub.data s.data

/-- Decidable equality for modelled Python outcomes (a raised exception or a
returned value), so that concrete executions can be checked by `decide`. -/
instance {ε α : Type} [DecidableEq ε] [DecidableEq α] : DecidableEq (Except ε α) := fun x y =>
  match x, y with
  | Except.error e, Except.error f =>
    match decEq e f with
    | isTrue h => isTrue (by rw [h])
    | isFalse h => isFalse (fun hc => h (Except.error.inj hc))
  | Except.error _, Except.ok _ => isFalse (fun hc => Except.noConfusion hc)
  | Except.ok _, Except.error _ => isFalse (fun hc => Except.noConfusion hc)
  | Except.ok a, Except.ok b =>
    match decEq a b with
    | isTrue h => isTrue (by rw [h])
    | isFalse h => isFalse (fun hc => h (Except.ok.inj hc))

/-! ## Python dictionaries -/

/-- Python dict lookup over an insertion-ordered association list: the most
recently inserted binding for a key wins (later inserts overwrite earlier
ones), which is why the fold keeps the *last* match. -/
def dictFind {α : Type} (entries : List (String × α)) (k : String) : Option α :=
  entries.foldl (fun acc kv => if kv.1 = k then some kv.2 else acc) none

/-- A Python dict literal with two keys, `{k1: v1, k2: v2}`: when the two keys
coincide the second binding overwrites the first. -/
def dict2 {α : Type} (k1 : String) (v1 : α) (k2 : String) (v2 : α) :
    List (String × α) :=
  if k1 = k2 then [(k2, v2)] else [(k1, v1), (k2, v2)]

/-! ## `cache.py` — `CacheManager`

The cache directory holds at most one JSON file per key; each file stores the
payload, its creation timestamp and a TTL in hours. -/

/-- The JSON record `cache.py` writes for one key. -/
structure CacheEntry (α : Type) where
  value : α
  /-- `datetime.now().isoformat()` at `set` time, as seconds. -/
  timestamp : Int
  ttl_hours : Int
deriving Repr, DecidableEq

/-- The cache directory: at most one file (hence at most one binding) per
key. -/
abbrev CacheState (α : Type) := List (String × CacheEntry α)

namespace CacheManager

/-- `CacheManager.set`: (over)writes the key's file.  `ttl_hours` defaults to
24 at every modelled call site that omits it. -/
def set {α : Type} (c : CacheState α) (key : String) (value : α)
    (ttl_hours : Int) (now : Int) : CacheState α :=
  c.filter (fun kv => kv.1 ≠ key) ++ [(key, ⟨value, now, ttl_hours⟩)]

/-- `CacheManager.get`: a missing file is a miss; an expired entry
(`now > timestamp + ttl_hours` as a timedelta) is deleted and reported as a
miss; otherwise the stored value is returned and the directory is left
unchanged. -/
def get {α : Type} (c : CacheState α) (key : String) (now : Int) :
    Option α × CacheState α :=
  match c.find? (fun kv => kv.1 = key) with
  | none => (none, c)
  | some kv =>
    if now > kv.2.timestamp + kv.2.ttl_hours * 3600 then
      (none, c.filter (fun kv => kv.1 ≠ key))
    else
      (some kv.2.value, c)

/-- `CacheManager.clear`: removes every `.json` file in the directory. -/
def clear {α : Type} (_ : CacheState α) : CacheState α := []

/-- `CacheManager.clear_key`. -/
def clear_key {α : Type} (c : CacheState α) (key : String) : CacheState α :=
  c.filter (fun kv => kv.1 ≠ key)

end CacheManager

/-! ## `stats.py` payloads and `data.py` records -/

/-- The dict returned by `stats.get_player_season_stats` (floats abstracted
as `Int`). -/
structure PlayerStats where
  season : String
  games_played : Int
  points_per_game : Int
  rebounds_per_game : Int
  assists_per_game : Int
  field_goal_percentage : Int
  three_point_percentage : Int
  free_throw_percentage : Int
deriving Repr, DecidableEq

/-- The dict returned by `stats.get_team_season_stats`. -/
structure TeamStats where
  wins : Int
  losses : Int
  win_percentage : Int
  points_per_game : Int
  field_goal_percentage : Int
  three_point_percentage : Int
  rebounds_per_game : Int
  assists_per_game : Int
deriving Repr, DecidableEq

/-- One element of `nba_api.stats.static.players.get_players()`. -/
structure PlayerEntry where
  id : Nat
  full_name : String
  is_active : Bool
deriving Repr, DecidableEq

/-- One element of `nba_api.stats.static.teams.get_teams()`. -/
structure TeamEntry where
  id : Nat
  full_name : String
  nickname : String
deriving Repr, DecidableEq

/-- The dict `data.get_player_info` builds (and caches). -/
structure PlayerRecord where
  id : Nat
  full_name : String
  is_active : Bool
  summary : String
  source : String
  stats : Option PlayerStats
deriving Repr, DecidableEq

/-- The dict `data.get_team_info` builds (and caches). -/
structure TeamRecord where
  id : Nat
  full_name : String
  summary : String
  source : String
  stats : Option TeamStats
deriving Repr, DecidableEq

/-- `config.DATA_MODE` ("lite" vs "full" external stats). -/
inductive DataMode where
  | lite : DataMode
  | full : DataMode
deriving Repr, DecidableEq

/-- The external world the data layer talks to.  `wiki name = none` models
`wikipedia.summary` raising; `player_season_stats` / `team_season_stats`
return `none` when the retry-wrapped fetch in `stats.py` gives up (the
`@retry` decorator swallows the exception and returns `None`). -/
structure DataEnv where
  roster : List PlayerEntry
  nba_teams : List TeamEntry
  wiki : String → Option String
  player_season_stats : Nat → Option PlayerStats
  team_season_stats : Nat → Option TeamStats
  mode : DataMode
  /-- Upstream of the spec-modelled `web_search` gateway operation. -/
  web : String → Except String String
  /-- The chromadb query: documents for the first query text, or a raised
  exception. -/
  kb : String → Except String (List String)

/-- `data._initialize_lookups`, player half: a dict keyed by lower-cased full
name. -/
def playerLookup (env : DataEnv) : List (String × PlayerEntry) :=
  env.roster.map (fun p => ((pyLower p.full_name), p))

/-- `data._initialize_lookups`, team half: full names first, then (truthy,
i.e. non-empty) nicknames, later insertions overwriting earlier ones. -/
def teamLookup (env : DataEnv) : List (String × TeamEntry) :=
  env.nba_teams.map (fun t => ((pyLower t.full_name), t)) ++
    env.nba_teams.filterMap (fun t =>
      if t.nickname ≠ "" then some ((pyLower t.nickname), t) else none)

/-- `data.get_player_info`: case-insensitive roster lookup, then cache, then
Wikipedia summary (exception swallowed into a default biography) and — in
full mode only — the season stats fetch.  The fresh record is cached with the
default TTL of 24 hours.  File I/O is modelled as reliable state. -/
def get_player_info (env : DataEnv) (now : Int) (c : CacheState PlayerRecord)
    (player_name : String) : Option PlayerRecord × CacheState PlayerRecord :=
  match dictFind (playerLookup env) (pyLower player_name) with
  | none => (none, c)
  | some fp =>
    let cache_key := "player_lite_" ++ toString fp.id
    match CacheManager.get c cache_key now with
    | (some cached, c1) => (some cached, c1)
    | (none, c1) =>
      let summary := (env.wiki (fp.full_name ++ " NBA")).getD
        "No biography available."
      let fetched :=
        if env.mode = DataMode.full then
          match env.player_season_stats fp.id with
          | some s => (some s, "nba_api (Full Mode)")
          | none => (none, "Wikipedia (Lite Mode)")
        else (none, "Wikipedia (Lite Mode)")
      let result : PlayerRecord :=
        ⟨fp.id, fp.full_name, fp.is_active, summary, fetched.2, fetched.1⟩
      (some result, CacheManager.set c1 cache_key result 24 now)

/-- `data.get_team_info`, the team analogue of `get_player_info`. -/
def get_team_info (env : DataEnv) (now : Int) (c : CacheState TeamRecord)
    (team_name : String) : Option TeamRecord × CacheState TeamRecord :=
  match dictFind (teamLookup env) (pyLower team_name) with
  | none => (none, c)
  | some ft =>
    let cache_key := "team_lite_" ++ toString ft.id
    match CacheManager.get c cache_key now with
    | (some cached, c1) => (some cached, c1)
    | (none, c1) =>
      let summary := (env.wiki (ft.full_name ++ " NBA")).getD
        "No team history available."
      let fetched :=
        if env.mode = DataMode.full then
          match env.team_season_stats ft.id with
          | some s => (some s, "nba_api (Full Mode)")
          | none => (none, "Wikipedia (Lite Mode)")
        else (none, "Wikipedia (Lite Mode)")
      let result : TeamRecord := ⟨ft.id, ft.full_name, summary, fetched.2, fetched.1⟩
      (some result, CacheManager.set c1 cache_key result 24 now)

/-- `data.get_live_games`: a static stub ("to avoid API blocks"). -/
structure GameInfo where
  status : String
  matchup : String
  score : String
  period : String
deriving Repr, DecidableEq

/-- `data.get_live_games`. -/
def get_live_games : List GameInfo :=
  [⟨"Info", "Live Data Disabled", "N/A", "Lite Mode"⟩]

/-! ### Renderings

Stand-ins for `json.dumps` / f-string interpolation of structured payloads
embedded into specialist queries and log lines: kernel-computable string
renderings.  No modelled code inspects these strings, they only flow into
prompts and agent memories. -/

def dumpPlayerStats (s : PlayerStats) : String :=
  s.season ++ " " ++ toString s.games_played ++ " " ++ toString s.points_per_game
    ++ " " ++ toString s.rebounds_per_game ++ " " ++ toString s.assists_per_game
    ++ " " ++ toString s.field_goal_percentage ++ " " ++ toString s.three_point_percentage
    ++ " " ++ toString s.free_throw_percentage

def dumpOptPlayerStats : Option PlayerStats → String
  | none => "null"
  | some s => dumpPlayerStats s

def dumpPlayerRecord (p : PlayerRecord) : String :=
  toString p.id ++ " " ++ p.full_name ++ " "
    ++ (if p.is_active then "True" else "False") ++ " " ++ p.summary ++ " "
    ++ p.source ++ " " ++ dumpOptPlayerStats p.stats

def dumpTeamStats (s : TeamStats) : String :=
  toString s.wins ++ " " ++ toString s.losses ++ " " ++ toString s.win_percentage
    ++ " " ++ toString s.points_per_game ++ " " ++ toString s.field_goal_percentage
    ++ " " ++ toString s.three_point_percentage ++ " " ++ toString s.rebounds_per_game
    ++ " " ++ toString s.assists_per_game

def dumpOptTeamStats : Option TeamStats → String
  | none => "null"
  | some s => dumpTeamStats s

def dumpTeamRecord (t : TeamRecord) : String :=
  toString t.id ++ " " ++ t.full_name ++ " " ++ t.summary ++ " " ++ t.source
    ++ " " ++ dumpOptTeamStats t.stats

def dumpGameInfo (g : GameInfo) : String :=
  g.status ++ " " ++ g.matchup ++ " " ++ g.score ++ " " ++ g.period

def dumpGames (l : List GameInfo) : String :=
  l.foldl (fun acc g => acc ++ dumpGameInfo g ++ "\n") ""

def dumpIntPairs (l : List (String × Int)) : String :=
  l.foldl (fun acc kv => acc ++ kv.1 ++ ": " ++ toString kv.2 ++ ", ") ""

def dumpStrPairs (l : List (String × String)) : String :=
  l.foldl (fun acc kv => acc ++ kv.1 ++ ": " ++ kv.2 ++ ", ") ""

def dumpOptStr : Option String → String
  | none => "None"
  | some s => s

/-- The matchup data dict assembled by `GamePredictor.predict_matchup`. -/
def dumpMatchup (team1 : String) (d1 : TeamRecord) (team2 : String)
    (d2 : TeamRecord) : String :=
  "matchup: " ++ team1 ++ " vs " ++ team2 ++ " " ++ team1 ++ ": "
    ++ dumpTeamRecord d1 ++ " " ++ team2 ++ ": " ++ dumpTeamRecord d2

/-! ## `tools.py` — `NBATool`, the Data Gateway -/

/-- The uniform success/error envelope built by `NBATool.get_player_stats`
and `NBATool.get_team_stats`: `success=True` dicts carry a `data` key and no
`error` key, `success=False` dicts carry an `error` key and no `data` key. -/
structure ToolEnvelope (α : Type) where
  success : Bool
  data : Option α
  error : Option String
deriving Repr, DecidableEq

namespace NBATool

/-- `NBATool.get_player_stats`. -/
def get_player_stats (env : DataEnv) (now : Int) (c : CacheState PlayerRecord)
    (player_name : String) : ToolEnvelope PlayerRecord × CacheState PlayerRecord :=
  match get_player_info env now c player_name with
  | (some player, c1) => (⟨true, some player, none⟩, c1)
  | (none, c1) =>
    (⟨false, none, some ("Player \x27" ++ player_name ++ "\x27 not found")⟩, c1)

/-- `NBATool.get_team_stats`. -/
def get_team_stats (env : DataEnv) (now : Int) (c : CacheState TeamRecord)
    (team_name : String) : ToolEnvelope TeamRecord × CacheState TeamRecord :=
  match get_team_info env now c team_name with
  | (some team, c1) => (⟨true, some team, none⟩, c1)
  | (none, c1) =>
    (⟨false, none, some ("Team \x27" ++ team_name ++ "\x27 not found")⟩, c1)

/-- The `comparison` dict of `NBATool.compare_players`: each statistic maps
both input names to the corresponding player's figure. -/
structure PlayerComparison where
  points : List (String × Int)
  rebounds : List (String × Int)
  assists : List (String × Int)
  field_goal_percentage : List (String × Int)
deriving Repr, DecidableEq

/-- The result dict of `NBATool.compare_players`. -/
structure CompareEnvelope where
  success : Bool
  player1 : Option String
  player2 : Option String
  comparison : Option PlayerComparison
  error : Option String
deriving Repr, DecidableEq

/-- `NBATool.compare_players`.  When both lookups succeed the code subscripts
`p["stats"]["points_per_game"]` etc.; if a found player's `stats` payload is
`None` (always the case in lite mode, and in full mode when the stats fetch
gave up) that subscript raises `TypeError`, modelled as `Except.error`. -/
def compare_players (env : DataEnv) (now : Int) (c : CacheState PlayerRecord)
    (player1 player2 : String) :
    Except String CompareEnvelope × CacheState PlayerRecord :=
  let r1 := get_player_info env now c player1
  let r2 := get_player_info env now r1.2 player2
  match r1.1, r2.1 with
  | some q1, some q2 =>
    match q1.stats, q2.stats with
    | some s1, some s2 =>
      (Except.ok
        ⟨true, some player1, some player2,
          some ⟨dict2 player1 s1.points_per_game player2 s2.points_per_game,
                dict2 player1 s1.rebounds_per_game player2 s2.rebounds_per_game,
                dict2 player1 s1.assists_per_game player2 s2.assists_per_game,
                dict2 player1 s1.field_goal_percentage player2 s2.field_goal_percentage⟩,
          none⟩, r2.2)
    | _, _ =>
      (Except.error "TypeError: \x27NoneType\x27 object is not subscriptable", r2.2)
  | _, _ =>
    (Except.ok ⟨false, none, none, none, some "One or both players not found"⟩, r2.2)

def dumpComparison (c : PlayerComparison) : String :=
  "points: " ++ dumpIntPairs c.points ++ "rebounds: " ++ dumpIntPairs c.rebounds
    ++ "assists: " ++ dumpIntPairs c.assists ++ "field_goal_percentage: "
    ++ dumpIntPairs c.field_goal_percentage

def dumpCompareEnvelope (c : CompareEnvelope) : String :=
  "success: " ++ (if c.success then "true" else "false") ++ " player1: "
    ++ dumpOptStr c.player1 ++ " player2: " ++ dumpOptStr c.player2
    ++ " comparison: "
    ++ (match c.comparison with
        | none => "null"
        | some cmp => dumpComparison cmp)
    ++ " error: " ++ dumpOptStr c.error

/-- The envelope of the spec-modelled `get_games_today` operation. -/
structure GamesEnvelope where
  success : Bool
  games : Option (List GameInfo)
  error : Option String
deriving Repr, DecidableEq

/-- Modelled from the spec: `NBATool.get_games_today` is called by
`StatsAnalyzer.check_live_games` but its definition is absent from the
repository sources.  The spec lists it as a Data Gateway read operation
returning a ToolEnvelope; the only games payload available in the sources is
the `data.get_live_games` stub, so the operation wraps it in a success
envelope. -/
def get_games_today : GamesEnvelope :=
  ⟨true, some get_live_games, none⟩

/-- The envelope of the spec-modelled `web_search` operation (its success
payload lives under a `result` key, as read by `DraftProspect.scout_prospect`
and `NBACrew._web_search_wrapper`). -/
structure SearchEnvelope where
  success : Bool
  result : Option String
  error : Option String
deriving Repr, DecidableEq

/-- Modelled from the spec: `NBATool.web_search` is called by
`DraftProspect.scout_prospect` and `NBACrew._web_search_wrapper` but its
definition is absent from the repository sources.  Per the spec it returns a
ToolEnvelope, never raises, and on upstream failure (after the gateway's
bounded retries give up) reports `success=false` with a non-empty
human-readable error and no data. -/
def web_search (env : DataEnv) (query : String) : SearchEnvelope :=
  match env.web query with
  | Except.ok r => ⟨true, some r, none⟩
  | Except.error e => ⟨false, none, some ("Web search failed: " ++ e)⟩

end NBATool

/-! ## `agents.py` — conversational state and the completion backend -/

/-- One chat message. -/
structure Turn where
  role : String
  content : String
deriving Repr, DecidableEq

/-- The token usage a non-streaming completion response reports. -/
structure Usage where
  prompt_tokens : Nat
  completion_tokens : Nat
  total_tokens : Nat
deriving Repr, DecidableEq

/-- Componentwise accumulation, as in `NBACrew._log_usage`. -/
def Usage.add (a b : Usage) : Usage :=
  ⟨a.prompt_tokens + b.prompt_tokens, a.completion_tokens + b.completion_tokens,
    a.total_tokens + b.total_tokens⟩

/-- The mutable state of one `BaseAgent`. -/
structure AgentState where
  memory : List Turn
  last_usage : Option Usage
deriving Repr, DecidableEq

/-- The six agents held by `NBACrew`. -/
inductive AgentId where
  | analyzer : AgentId
  | scout : AgentId
  | trader : AgentId
  | predictor : AgentId
  | draftScout : AgentId
  | reviewer : AgentId
deriving Repr, DecidableEq

/-- One `NBACrew._log` entry. -/
structure LogEntry where
  level : String
  message : String
deriving Repr, DecidableEq

/-- The mutable state of the whole crew.  `calls` is the cursor into the
completion oracle: the n-th completion request issued to the backend (by any
agent or by the coordinator itself) receives the oracle's n-th answer. -/
structure CrewState where
  analyzer : AgentState
  scout : AgentState
  trader : AgentState
  predictor : AgentState
  draft_scout : AgentState
  reviewer : AgentState
  conversation_history : List Turn
  log : List LogEntry
  run_usage : Usage
  player_cache : CacheState PlayerRecord
  team_cache : CacheState TeamRecord
  calls : Nat
  /-- Ghost observation trace (not a Python variable): the `responses`
  mapping passed to each `synthesize_responses` call, in call order.  The
  synthesis prompt embeds `json.dumps(responses)` verbatim, so this trace
  records exactly what the synthesis completion call receives. -/
  synth_log : List (List (String × String))
deriving Repr, DecidableEq

/-- The router output after `json.loads` and the two `.get` calls:
`tool = none` when the parsed object has no (string) `tool` key, and `params`
defaults to the empty dict. -/
structure RoutingDecision where
  tool : Option String
  params : List (String × String)
deriving Repr, DecidableEq

/-- The full external environment of a crew.  `completions n` is the outcome
of the n-th completion request: the reply text together with the usage the
response reports, or a raised exception.  The oracle is indexed by call
order; the prompt texts the code assembles are not inspected by the backend
model.  `parse_route t = none` models `json.loads(t)` raising (or the parsed
value not being a dict, which raises on `.get`). -/
structure Env where
  completions : Nat → Except String (String × Option Usage)
  parse_route : String → Option RoutingDecision
  data : DataEnv
  now : Int

namespace CrewState

/-- Read one agent's state. -/
def agent (s : CrewState) : AgentId → AgentState
  | AgentId.analyzer => s.analyzer
  | AgentId.scout => s.scout
  | AgentId.trader => s.trader
  | AgentId.predictor => s.predictor
  | AgentId.draftScout => s.draft_scout
  | AgentId.reviewer => s.reviewer

/-- Replace one agent's state. -/
def setAgent (s : CrewState) (i : AgentId) (a : AgentState) : CrewState :=
  match i with
  | AgentId.analyzer => { s with analyzer := a }
  | AgentId.scout => { s with scout := a }
  | AgentId.trader => { s with trader := a }
  | AgentId.predictor => { s with predictor := a }
  | AgentId.draftScout => { s with draft_scout := a }
  | AgentId.reviewer => { s with reviewer := a }

/-- `NBACrew._log`. -/
def addLog (s : CrewState) (level message : String) : CrewState :=
  { s with log := s.log ++ [⟨level, message⟩] }

/-- `NBACrew._log_usage`: `None` (falsy) usage is skipped, otherwise the
three counters are incremented. -/
def logUsage (s : CrewState) (u : Option Usage) : CrewState :=
  { s with run_usage :=
      match u with
      | none => s.run_usage
      | some uu => s.run_usage.add uu }

/-- `NBACrew.add_to_history`. -/
def addHistory (s : CrewState) (role content : String) : CrewState :=
  { s with conversation_history := s.conversation_history ++ [⟨role, content⟩] }

/-- `BaseAgent.add_to_memory` on agent `i`. -/
def addMemory (s : CrewState) (i : AgentId) (role content : String) : CrewState :=
  s.setAgent i ⟨(s.agent i).memory ++ [⟨role, content⟩], (s.agent i).last_usage⟩

/-- Assign agent `i`'s `last_usage`. -/
def setLastUsage (s : CrewState) (i : AgentId) (u : Option Usage) : CrewState :=
  s.setAgent i ⟨(s.agent i).memory, u⟩

end CrewState

/-- Issue one completion request: consume the oracle's next answer. -/
def callCompletion (env : Env) (s : CrewState) :
    Except String (String × Option Usage) × CrewState :=
  (env.completions s.calls, { s with calls := s.calls + 1 })

/-- `BaseAgent.think`, non-streaming branch: append the query to memory, call
the backend (a raised exception propagates with the query already in
memory), record the reported usage, append and return the reply. -/
def think (env : Env) (i : AgentId) (query : String) (s : CrewState) :
    Except String String × CrewState :=
  let s := s.addMemory i "user" query
  match callCompletion env s with
  | (Except.error e, s1) => (Except.error e, s1)
  | (Except.ok cu, s1) =>
    (Except.ok cu.1, (s1.setLastUsage i cu.2).addMemory i "assistant" cu.1)

/-- `BaseAgent.think`, streaming branch: `last_usage` is cleared before the
request; the generator is returned to the caller undrained, so the assistant
reply has not (yet) been appended to memory. -/
def thinkStream (env : Env) (i : AgentId) (query : String) (s : CrewState) :
    Except String (List String) × CrewState :=
  let s := (s.addMemory i "user" query).setLastUsage i none
  match callCompletion env s with
  | (Except.error e, s1) => (Except.error e, s1)
  | (Except.ok cu, s1) => (Except.ok [cu.1], s1)

/-! ### The specialist entry points

Each entry point first calls the Data Gateway; a failed envelope makes it
return the envelope's error string without invoking the backend ("fail
fast"), so `last_usage` keeps whatever value it had before.  `json.dumps` of
a payload embedded into a query is abstracted as the `Repr` rendering; no
modelled code inspects these strings.  A dict subscript on a key the
envelope lacks would raise `KeyError`; the envelopes built by the gateway
always carry the accessed keys, so those branches are marked as errors. -/

namespace StatsAnalyzer

/-- `StatsAnalyzer.analyze_player`. -/
def analyze_player (env : Env) (s : CrewState) (player_name : String) :
    Except String String × CrewState :=
  let r := NBATool.get_player_stats env.data env.now s.player_cache player_name
  let s := { s with player_cache := r.2 }
  if r.1.success = false then
    match r.1.error with
    | some e => (Except.ok e, s)
    | none => (Except.error "KeyError: error", s)
  else
    match r.1.data with
    | some d =>
      think env AgentId.analyzer
        ("Analyze this player\x27s stats and provide detailed insights with explanations:\n"
          ++ dumpPlayerRecord d) s
    | none => (Except.error "KeyError: data", s)

/-- `StatsAnalyzer.analyze_team`. -/
def analyze_team (env : Env) (s : CrewState) (team_name : String) :
    Except String String × CrewState :=
  let r := NBATool.get_team_stats env.data env.now s.team_cache team_name
  let s := { s with team_cache := r.2 }
  if r.1.success = false then
    match r.1.error with
    | some e => (Except.ok e, s)
    | none => (Except.error "KeyError: error", s)
  else
    match r.1.data with
    | some d =>
      think env AgentId.analyzer
        ("Analyze this team\x27s performance based on the provided data. If specific stats/roster are missing (Lite Mode), provide a general assessment of the team\x27s status and history:\n"
          ++ dumpTeamRecord d) s
    | none => (Except.error "KeyError: data", s)

/-- `StatsAnalyzer.check_live_games` (over the spec-modelled
`get_games_today`). -/
def check_live_games (env : Env) (s : CrewState) :
    Except String String × CrewState :=
  let g := NBATool.get_games_today
  if g.success = false then
    (Except.ok "Failed to fetch live games.", s)
  else
    match g.games with
    | some gs =>
      think env AgentId.analyzer
        ("Report on the NBA games happening today based on this data:\n" ++ dumpGames gs) s
    | none => (Except.error "KeyError: games", s)

end StatsAnalyzer

namespace PlayerScout

/-- `PlayerScout.scout_player`. -/
def scout_player (env : Env) (s : CrewState) (player_name : String) :
    Except String String × CrewState :=
  let r := NBATool.get_player_stats env.data env.now s.player_cache player_name
  let s := { s with player_cache := r.2 }
  if r.1.success = false then
    match r.1.error with
    | some e => (Except.ok e, s)
    | none => (Except.error "KeyError: error", s)
  else
    match r.1.data with
    | some d =>
      think env AgentId.scout
        ("As a scout, provide a comprehensive and detailed evaluation of this player\x27s potential and performance, explaining your reasoning:\n"
          ++ dumpPlayerRecord d) s
    | none => (Except.error "KeyError: data", s)

end PlayerScout

namespace TradeAnalyst

/-- `TradeAnalyst.compare_for_trade`: a `TypeError` raised inside
`compare_players` propagates; a failure envelope is returned as its error
string without a completion call. -/
def compare_for_trade (env : Env) (s : CrewState) (player1 player2 : String) :
    Except String String × CrewState :=
  let r := NBATool.compare_players env.data env.now s.player_cache player1 player2
  let s := { s with player_cache := r.2 }
  match r.1 with
  | Except.error e => (Except.error e, s)
  | Except.ok comparison =>
    if comparison.success = false then
      match comparison.error with
      | some e => (Except.ok e, s)
      | none => (Except.error "KeyError: error", s)
    else
      think env AgentId.trader
        ("Analyze this potential trade scenario in detail, explaining the pros and cons for both sides:\n"
          ++ NBATool.dumpCompareEnvelope comparison) s

end TradeAnalyst

namespace GamePredictor

/-- `GamePredictor.predict_matchup`: both team lookups are performed before
the success check. -/
def predict_matchup (env : Env) (s : CrewState) (team1 team2 : String) :
    Except String String × CrewState :=
  let r1 := NBATool.get_team_stats env.data env.now s.team_cache team1
  let r2 := NBATool.get_team_stats env.data env.now r1.2 team2
  let s := { s with team_cache := r2.2 }
  if !r1.1.success || !r2.1.success then
    (Except.ok "One or both teams not found", s)
  else
    match r1.1.data, r2.1.data with
    | some d1, some d2 =>
      think env AgentId.predictor
        ("Predict the outcome of this matchup. If specific stats are provided, use them. If not, rely on your knowledge of the teams\x27 current rosters and playing styles:\n"
          ++ dumpMatchup team1 d1 team2 d2) s
    | _, _ => (Except.error "KeyError: data", s)

end GamePredictor

namespace DraftProspect

/-- `DraftProspect.scout_prospect` (over the spec-modelled `web_search`). -/
def scout_prospect (env : Env) (s : CrewState) (prospect_name : String) :
    Except String String × CrewState :=
  let sr := NBATool.web_search env.data ("NBA draft prospect " ++ prospect_name)
  if sr.success = false then
    match sr.error with
    | some e => (Except.ok e, s)
    | none => (Except.error "KeyError: error", s)
  else
    match sr.result with
    | some context =>
      think env AgentId.draftScout
        ("As a professional NBA scout, provide a detailed scouting report for the draft prospect \x27"
          ++ prospect_name
          ++ "\x27 based on the following information. Analyze their strengths, weaknesses, NBA potential, and a potential player comparison if possible.\n\nContext:\n"
          ++ context) s
    | none => (Except.error "KeyError: result", s)

end DraftProspect

/-- A Python value that is either a fully assembled string or an undrained
generator of text chunks. -/
inductive StrOrStream where
  | text (answer : String) : StrOrStream
  | chunks (parts : List String) : StrOrStream
deriving Repr, DecidableEq

namespace Reviewer

/-- `Reviewer.review_answer`: wraps the task and draft into a review query
and delegates to `think` with the caller's `stream` flag. -/
def review_answer (env : Env) (s : CrewState) (task draft_answer : String)
    (stream : Bool) : Except String StrOrStream × CrewState :=
  let query :=
    "The user\x27s original task was: \x22" ++ task
      ++ "\x22\n\nHere is the draft answer generated by the agent crew:\n---\n"
      ++ draft_answer
      ++ "\n---\n\nPlease review this draft. Your goal is to act as a final quality gate. Your final output must ONLY be the refined answer itself."
  if stream then
    match thinkStream env AgentId.reviewer query s with
    | (Except.error e, s1) => (Except.error e, s1)
    | (Except.ok cs, s1) => (Except.ok (StrOrStream.chunks cs), s1)
  else
    match think env AgentId.reviewer query s with
    | (Except.error e, s1) => (Except.error e, s1)
    | (Except.ok a, s1) => (Except.ok (StrOrStream.text a), s1)

end Reviewer

/-! ## `coordinator.py` — `NBACrew` -/

namespace NBACrew

/-- `NBACrew.synthesize_responses`: one completion call over the synthesis
prompt (which embeds the task and `json.dumps(responses)`); its usage is
accounted; a raised exception propagates. -/
def synthesize_responses (env : Env) (s : CrewState) (_task : String)
    (responses : List (String × String)) : Except String String × CrewState :=
  let s := { s with synth_log := s.synth_log ++ [responses] }
  match callCompletion env s with
  | (Except.error e, s1) => (Except.error e, s1)
  | (Except.ok cu, s1) => (Except.ok cu.1, s1.logUsage cu.2)

/-- `NBACrew.query_knowledge_base`: any exception from the vector store is
caught, logged at ERROR, and turned into a fixed error sentence. -/
def query_knowledge_base (env : Env) (s : CrewState) (query : String) :
    Except String String × CrewState :=
  let s := s.addLog "INFO" ("Querying knowledge base for: \x27" ++ query ++ "\x27")
  match env.data.kb query with
  | Except.ok docs =>
    if docs.isEmpty then
      (Except.ok "No relevant information found in the knowledge base.", s)
    else
      (Except.ok (String.intercalate "\n" docs), s)
  | Except.error e =>
    (Except.ok "Error accessing the knowledge base.",
      s.addLog "ERROR" ("Knowledge base query failed: " ++ e))

/-- `NBACrew.ask_question`, the generic Q&A path: one completion call over
the system prompt plus the whole conversation history; its usage is
accounted; a raised exception propagates. -/
def ask_question (env : Env) (s : CrewState) (question : String) :
    Except String String × CrewState :=
  let s := s.addLog "INFO" ("Processing general question: " ++ question)
  match callCompletion env s with
  | (Except.error e, s1) => (Except.error e, s1)
  | (Except.ok cu, s1) => (Except.ok cu.1, s1.logUsage cu.2)

/-- `NBACrew._scout_player_with_usage`: run the scout, then account whatever
`scout.last_usage` currently holds (the scout's fail-fast path leaves it
untouched). -/
def scout_player_with_usage (env : Env) (s : CrewState) (player_name : String) :
    Except String String × CrewState :=
  match PlayerScout.scout_player env s player_name with
  | (Except.error e, s1) => (Except.error e, s1)
  | (Except.ok r, s1) => (Except.ok r, s1.logUsage (s1.agent AgentId.scout).last_usage)

/-- `NBACrew._check_live_games_with_usage` (accepts and ignores arbitrary
keyword arguments). -/
def check_live_games_with_usage (env : Env) (s : CrewState) :
    Except String String × CrewState :=
  match StatsAnalyzer.check_live_games env s with
  | (Except.error e, s1) => (Except.error e, s1)
  | (Except.ok r, s1) => (Except.ok r, s1.logUsage (s1.agent AgentId.analyzer).last_usage)

/-- `NBACrew._scout_prospect_with_usage`. -/
def scout_prospect_with_usage (env : Env) (s : CrewState) (prospect_name : String) :
    Except String String × CrewState :=
  match DraftProspect.scout_prospect env s prospect_name with
  | (Except.error e, s1) => (Except.error e, s1)
  | (Except.ok r, s1) => (Except.ok r, s1.logUsage (s1.agent AgentId.draftScout).last_usage)

/-- `NBACrew._web_search_wrapper`:
`result.get("result", result.get("error", "Web search failed."))`. -/
def web_search_wrapper (env : Env) (s : CrewState) (query : String) :
    Except String String × CrewState :=
  let sr := NBATool.web_search env.data query
  (Except.ok (sr.result.getD (sr.error.getD "Web search failed.")), s)

/-- `NBACrew.analyze_player_comprehensive`: analyzer then scout then
synthesis, with *no* exception handling — a specialist failure propagates to
the caller (`route_task`). -/
def analyze_player_comprehensive (env : Env) (s : CrewState) (player_name : String) :
    Except String String × CrewState :=
  let s := s.addLog "INFO" ("Analyzing " ++ player_name ++ " from multiple perspectives...")
  let s := s.addLog "INFO" "Stats Analyzer: Analyzing statistics..."
  match StatsAnalyzer.analyze_player env s player_name with
  | (Except.error e, s1) => (Except.error e, s1)
  | (Except.ok stats_analysis, s1) =>
    let s1 := s1.logUsage (s1.agent AgentId.analyzer).last_usage
    let s1 := s1.addLog "INFO" "Player Scout: Evaluating performance..."
    match PlayerScout.scout_player env s1 player_name with
    | (Except.error e, s2) => (Except.error e, s2)
    | (Except.ok scout_evaluation, s2) =>
      let s2 := s2.logUsage (s2.agent AgentId.scout).last_usage
      let s2 := s2.addLog "INFO" "Synthesizing insights from all agents..."
      synthesize_responses env s2
        ("Provide a comprehensive analysis of " ++ player_name)
        [("stats_analysis", stats_analysis), ("scout_evaluation", scout_evaluation)]

/-- `NBACrew.analyze_team_comprehensive`: analyzer then synthesis, no
exception handling. -/
def analyze_team_comprehensive (env : Env) (s : CrewState) (team_name : String) :
    Except String String × CrewState :=
  let s := s.addLog "INFO" ("Analyzing " ++ team_name ++ " from multiple perspectives...")
  let s := s.addLog "INFO" "Stats Analyzer: Analyzing team statistics..."
  match StatsAnalyzer.analyze_team env s team_name with
  | (Except.error e, s1) => (Except.error e, s1)
  | (Except.ok team_stats, s1) =>
    let s1 := s1.logUsage (s1.agent AgentId.analyzer).last_usage
    let s1 := s1.addLog "INFO" "Synthesizing insights..."
    synthesize_responses env s1
      ("Provide a comprehensive analysis of " ++ team_name)
      [("team_stats", team_stats)]

/-- `NBACrew.evaluate_trade`: trade analyst, scout on each player, then
synthesis — *no* exception handling, so any specialist failure propagates.
Note the two `_log_usage(self.scout.get_last_usage())` calls: if the second
`scout_player` fails fast (player not found), `scout.last_usage` still holds
the usage of the first scout call and that usage is accounted a second
time. -/
def evaluate_trade (env : Env) (s : CrewState) (player1 player2 : String) :
    Except String String × CrewState :=
  let s := s.addLog "INFO" ("Evaluating trade: " ++ player1 ++ " for " ++ player2 ++ "...")
  let s := s.addLog "INFO" "Trade Analyst: Analyzing trade scenario..."
  match TradeAnalyst.compare_for_trade env s player1 player2 with
  | (Except.error e, s1) => (Except.error e, s1)
  | (Except.ok trade_analysis, s1) =>
    let s1 := s1.logUsage (s1.agent AgentId.trader).last_usage
    let s1 := s1.addLog "INFO" "Scout: Evaluating player value..."
    match PlayerScout.scout_player env s1 player1 with
    | (Except.error e, s2) => (Except.error e, s2)
    | (Except.ok p1_scout, s2) =>
      let s2 := s2.logUsage (s2.agent AgentId.scout).last_usage
      match PlayerScout.scout_player env s2 player2 with
      | (Except.error e, s3) => (Except.error e, s3)
      | (Except.ok p2_scout, s3) =>
        let s3 := s3.logUsage (s3.agent AgentId.scout).last_usage
        let s3 := s3.addLog "INFO" "Synthesizing trade insights..."
        synthesize_responses env s3
          ("Evaluate trading " ++ player1 ++ " for " ++ player2 ++ ". Is this a good trade?")
          [("trade_analysis", trade_analysis),
            ("player_comparison", p1_scout ++ "\n---\n" ++ p2_scout)]

/-- `NBACrew.predict_game`: the only composite operation with exception
handling — one try/except around the predictor, and one around *both* team
analyses together.  A caught failure stores the placeholder
"Data unavailable due to API error." under the block's key; the synthesis
call itself is outside any try and its failure propagates. -/
def predict_game (env : Env) (s : CrewState) (team1 team2 : String) :
    Except String String × CrewState :=
  let s := s.addLog "INFO" ("Predicting: " ++ team1 ++ " vs " ++ team2 ++ "...")
  let block1 : List (String × String) × CrewState :=
    let s1 := s.addLog "INFO" "Game Predictor: Analyzing matchup..."
    match GamePredictor.predict_matchup env s1 team1 team2 with
    | (Except.error e, s2) =>
      ([("prediction", "Data unavailable due to API error.")],
        s2.addLog "ERROR" ("⚠️ Game Predictor Error: " ++ e))
    | (Except.ok pred, s2) =>
      ([("prediction", pred)], s2.logUsage (s2.agent AgentId.predictor).last_usage)
  let block2 : List (String × String) × CrewState :=
    let s3 := block1.2.addLog "INFO" "Stats Analyzer: Analyzing both teams..."
    match StatsAnalyzer.analyze_team env s3 team1 with
    | (Except.error e, s4) =>
      ([("team_analysis", "Data unavailable due to API error.")],
        s4.addLog "ERROR" ("⚠️ Stats Analyzer Error: " ++ e))
    | (Except.ok a1, s4) =>
      let s4 := s4.logUsage (s4.agent AgentId.analyzer).last_usage
      match StatsAnalyzer.analyze_team env s4 team2 with
      | (Except.error e, s5) =>
        ([("team1_analysis", a1),
            ("team_analysis", "Data unavailable due to API error.")],
          s5.addLog "ERROR" ("⚠️ Stats Analyzer Error: " ++ e))
      | (Except.ok a2, s5) =>
        let s5 := s5.logUsage (s5.agent AgentId.analyzer).last_usage
        ([("team1_analysis", a1), ("team2_analysis", a2)], s5)
  let s6 := block2.2.addLog "INFO" "Synthesizing prediction..."
  synthesize_responses env s6
    ("Predict the winner of " ++ team1 ++ " vs " ++ team2 ++ ". Consider all factors.")
    (block1.1 ++ block2.1)

/-- Splat a one-key params dict into a one-parameter entry point: any other
key set raises `TypeError`. -/
def param1 (k : String) (ps : List (String × String)) : Option String :=
  match ps with
  | [p] => if p.1 = k then some p.2 else none
  | _ => none

/-- Splat a two-key params dict (in either order) into a two-parameter entry
point. -/
def param2 (k1 k2 : String) (ps : List (String × String)) :
    Option (String × String) :=
  match ps with
  | [p, q] =>
    if p.1 = k1 && q.1 = k2 then some (p.2, q.2)
    else if p.1 = k2 && q.1 = k1 then some (q.2, p.2)
    else none
  | _ => none

/-- The raised `TypeError` when `tool_function(**params)` is called with a
keyword set that does not match the function's signature. -/
def typeErr : Except String String := Except.error "TypeError: bad keyword arguments"

/-- `NBACrew.tool_dispatch`: the name→function table.  `none` means the tool
name is not a key of the table; a matched entry runs the tool with the params
dict splatted as keyword arguments (a mismatched key set raises `TypeError`
inside the router's try block). -/
def dispatch_tool (env : Env) (tool : String) (params : List (String × String))
    (s : CrewState) : Option (Except String String × CrewState) :=
  if tool = "evaluate_trade" then some
    (match param2 "player1" "player2" params with
      | some pq => evaluate_trade env s pq.1 pq.2
      | none => (typeErr, s))
  else if tool = "predict_game" then some
    (match param2 "team1" "team2" params with
      | some pq => predict_game env s pq.1 pq.2
      | none => (typeErr, s))
  else if tool = "scout_player" then some
    (match param1 "player_name" params with
      | some p => scout_player_with_usage env s p
      | none => (typeErr, s))
  else if tool = "analyze_player_comprehensive" then some
    (match param1 "player_name" params with
      | some p => analyze_player_comprehensive env s p
      | none => (typeErr, s))
  else if tool = "analyze_team_comprehensive" then some
    (match param1 "team_name" params with
      | some p => analyze_team_comprehensive env s p
      | none => (typeErr, s))
  else if tool = "check_live_games" then some
    (check_live_games_with_usage env s)
  else if tool = "scout_prospect" then some
    (match param1 "prospect_name" params with
      | some p => scout_prospect_with_usage env s p
      | none => (typeErr, s))
  else if tool = "query_knowledge_base" then some
    (match param1 "query" params with
      | some p => query_knowledge_base env s p
      | none => (typeErr, s))
  else if tool = "web_search" then some
    (match param1 "query" params with
      | some p => web_search_wrapper env s p
      | none => (typeErr, s))
  else if tool = "ask_question" then some
    (match param1 "question" params with
      | some p => ask_question env s p
      | none => (typeErr, s))
  else none

/-- The body of `NBACrew.route_task`'s try block: router completion call
(accounted), JSON parse, dispatch-table lookup, then either the tool call or
the unknown-tool WARN fallback to `ask_question`. -/
def route_task_attempt (env : Env) (s : CrewState) (task : String) :
    Except String String × CrewState :=
  match callCompletion env s with
  | (Except.error e, s1) => (Except.error e, s1)
  | (Except.ok cu, s1) =>
    let s1 := s1.logUsage cu.2
    match env.parse_route cu.1 with
    | none => (Except.error "json.JSONDecodeError", s1)
    | some decision =>
      let s2 := s1.addLog "INFO"
        ("Router decided to use: " ++ dumpOptStr decision.tool ++ " with " ++ dumpStrPairs decision.params)
      match decision.tool with
      | some tool =>
        match dispatch_tool env tool decision.params s2 with
        | some r => r
        | none =>
          ask_question env
            (s2.addLog "WARN"
              ("Unknown tool \x27" ++ tool ++ "\x27 decided by router. Falling back."))
            task
      | none =>
        ask_question env
          (s2.addLog "WARN" "Unknown tool \x27None\x27 decided by router. Falling back.")
          task

/-- `NBACrew.route_task`: the try block above, with `except Exception` logging
an ERROR entry and falling back to `ask_question` — whose own failure is
*outside* the handler and therefore propagates. -/
def route_task (env : Env) (s : CrewState) (task : String) :
    Except String String × CrewState :=
  let s := s.addLog "INFO" ("Routing task \x27" ++ task ++ "\x27...")
  match route_task_attempt env s task with
  | (Except.error e, sE) =>
    ask_question env
      (sE.addLog "ERROR" ("Routing Error: " ++ e ++ ". Falling back to general question."))
      task
  | ok => ok

/-- Python's substring test `"yes" in s`. -/
def containsYes (s : String) : Bool := pyContains s "yes"

/-- `NBACrew.is_task_on_topic`: one unaccounted completion call; the reply
(lower-cased, stripped) passes when it mentions "yes"; *any* exception makes
the gate fail open and report `true`. -/
def is_task_on_topic (env : Env) (s : CrewState) (_task : String) :
    Bool × CrewState :=
  let s := s.addLog "INFO" "Checking if task is on-topic..."
  match callCompletion env s with
  | (Except.error _, s1) => (true, s1)
  | (Except.ok cu, s1) => (containsYes (pyLower (pyStrip cu.1)), s1)

/-- The reset loop at the top of `NBACrew.run`: `reset_memory()` on all six
agents of the `agents` dict (memory cleared, `last_usage` cleared). -/
def resetAllMemories (s : CrewState) : CrewState :=
  { s with
    analyzer := ⟨[], none⟩
    scout := ⟨[], none⟩
    trader := ⟨[], none⟩
    predictor := ⟨[], none⟩
    draft_scout := ⟨[], none⟩
    reviewer := ⟨[], none⟩ }

/-- The canned off-topic reply. -/
def offTopicMessage : String :=
  "I am an NBA-specialized AI assistant. I can only answer questions related to basketball."

/-- The part of `NBACrew.run` that follows the memory reset: topic gate
(able to short-circuit with the canned message wrapped in a one-shot
generator, and without touching conversation history), then history append,
routing/dispatch, review, usage summary, and — only on the non-streaming
on-topic path — the append of the final answer to conversation history. -/
def run_after_reset (env : Env) (s : CrewState) (task : String) (stream : Bool) :
    Except String (StrOrStream × List LogEntry) × CrewState :=
  match is_task_on_topic env s task with
  | (false, s1) =>
    let s1 := s1.addLog "WARN"
      ("Task is off-topic. Responding: \x27" ++ offTopicMessage ++ "\x27")
    (Except.ok (StrOrStream.chunks [offTopicMessage], s1.log), s1)
  | (true, s1) =>
    let s1 := s1.addHistory "user" task
    match route_task env s1 task with
    | (Except.error e, s2) => (Except.error e, s2)
    | (Except.ok draft, s2) =>
      let s2 := s2.addLog "INFO" "Reviewer: Reviewing final answer for quality and clarity."
      match Reviewer.review_answer env s2 task draft stream with
      | (Except.error e, s3) => (Except.error e, s3)
      | (Except.ok final, s3) =>
        let s3 := s3.logUsage (s3.agent AgentId.reviewer).last_usage
        let s3 := s3.addLog "WARN" "Usage for streaming Reviewer agent is not tracked."
        let s3 := s3.addLog "SUMMARY"
          ("Run complete. Total tracked tokens: " ++ toString s3.run_usage.total_tokens
            ++ " (Prompt: " ++ toString s3.run_usage.prompt_tokens
            ++ ", Completion: " ++ toString s3.run_usage.completion_tokens ++ ")")
        if stream then
          (Except.ok (final, s3.log), s3)
        else
          match final with
          | StrOrStream.text a =>
            let s4 := s3.addHistory "assistant" a
            (Except.ok (StrOrStream.text a, s4.log), s4)
          | StrOrStream.chunks cs =>
            (Except.ok (StrOrStream.chunks cs, s3.log), s3)

/-- `NBACrew.run`: reset the usage tally and the execution log, log the task,
reset every agent's memory, then proceed as `run_after_reset`. -/
def run (env : Env) (s : CrewState) (task : String) (stream : Bool) :
    Except String (StrOrStream × List LogEntry) × CrewState :=
  let s := { s with run_usage := ⟨0, 0, 0⟩, log := [] }
  let s := s.addLog "INFO" ("Executing task: " ++ task)
  run_after_reset env (resetAllMemories s) task stream

/-- `NBACrew.clear_history`. -/
def clear_history (s : CrewState) : CrewState :=
  { s with conversation_history := [] }

/-- The keys of the `tool_dispatch` table. -/
def toolNames : List String :=
  ["evaluate_trade", "predict_game", "scout_player", "analyze_player_comprehensive",
    "analyze_team_comprehensive", "check_live_games", "scout_prospect",
    "query_knowledge_base", "web_search", "ask_question"]

end NBACrew

/-- Overwrite the six agent slots of a crew state (a specification helper
used to state that `run` is insensitive to the specialists' incoming
conversational state). -/
def overwriteAgents (s : CrewState) (f : AgentId → AgentState) : CrewState :=
  { s with
    analyzer := f AgentId.analyzer
    scout := f AgentId.scout
    trader := f AgentId.trader
    predictor := f AgentId.predictor
    draft_scout := f AgentId.draftScout
    reviewer := f AgentId.reviewer }

/-! ## Concrete fixtures for witnesses and counterexamples -/

namespace Fix

def lebron : PlayerEntry := ⟨2544, "LeBron James", true⟩

def curry : PlayerEntry := ⟨201939, "Stephen Curry", true⟩

def lakers : TeamEntry := ⟨1747, "Los Angeles Lakers", "Lakers"⟩

def celtics : TeamEntry := ⟨1738, "Boston Celtics", "Celtics"⟩

def lebronStats : PlayerStats := ⟨"2023-24", 71, 25, 7, 8, 54, 41, 75⟩

def curryStats : PlayerStats := ⟨"2023-24", 74, 26, 4, 5, 45, 40, 92⟩

/-- A lite-mode external world with a two-player roster and two teams. -/
def liteData : DataEnv :=
  { roster := [lebron, curry]
    nba_teams := [lakers, celtics]
    wiki := fun _ => none
    player_season_stats := fun _ => none
    team_season_stats := fun _ => none
    mode := DataMode.lite
    web := fun _ => Except.ok "Recent draft intel."
    kb := fun _ => Except.ok [] }

/-- The same world in full mode with season stats available for both
players. -/
def fullData : DataEnv :=
  { liteData with
    mode := DataMode.full
    player_season_stats := fun id =>
      if id = 2544 then some lebronStats
      else if id = 201939 then some curryStats
      else none }

/-- The lite world with an unreachable web-search upstream. -/
def failWebData : DataEnv :=
  { liteData with web := fun _ => Except.error "ConnectTimeout" }

def agent0 : AgentState := ⟨[], none⟩

/-- A freshly constructed crew: empty memories, histories, logs, caches. -/
def init0 : CrewState :=
  ⟨agent0, agent0, agent0, agent0, agent0, agent0, [], [], ⟨0, 0, 0⟩, [], [], 0, []⟩

def u10 : Usage := ⟨4, 6, 10⟩

def u20 : Usage := ⟨8, 12, 20⟩

def u30 : Usage := ⟨12, 18, 30⟩

def u40 : Usage := ⟨16, 24, 40⟩

def u50 : Usage := ⟨20, 30, 50⟩

/-- Every completion call raises. -/
def envAllFail : Env :=
  { completions := fun _ => Except.error "APIConnectionError"
    parse_route := fun _ => none
    data := liteData
    now := 0 }

/-- The router picks a tool name outside the dispatch table; the fallback
Q&A call succeeds. -/
def envRouteUnknown : Env :=
  { envAllFail with
    completions := fun n =>
      if n = 0 then Except.ok ("pick-a-tool", some u10)
      else Except.ok ("fallback answer", some u20)
    parse_route := fun t =>
      if t = "pick-a-tool" then some ⟨some "make_coffee", []⟩ else none }

/-- The router reply does not parse as JSON; the fallback Q&A call
succeeds. -/
def envRouteParseFail : Env :=
  { envAllFail with
    completions := fun n =>
      if n = 0 then Except.ok ("not json at all", some u10)
      else Except.ok ("fallback answer", some u20) }

/-- The router completion call raises; the fallback Q&A call succeeds. -/
def envRouteCallFail : Env :=
  { envAllFail with
    completions := fun n =>
      if n = 0 then Except.error "APITimeoutError"
      else Except.ok ("fallback answer", some u20) }

/-- Full-mode data, but every completion call raises (so the first
specialist of a composite operation fails). -/
def envTradeRaise : Env :=
  { envAllFail with data := fullData }

/-- A four-call completion oracle over the lite world: outcome `r0` for the
first call, then `r1`, `r2`, and `r3` for every later call. -/
def envPredict (r0 : Except String (String × Option Usage))
    (r1 r2 r3 : String × Option Usage) : Env :=
  { envAllFail with
    completions := fun n =>
      if n = 0 then r0
      else if n = 1 then Except.ok r1
      else if n = 2 then Except.ok r2
      else Except.ok r3 }

/-- The matchup-prediction specialist's completion call raises; the stats
analyses and the synthesis succeed. -/
def envPredictPartial : Env :=
  envPredict (Except.error "APIStatusError") ("analysis one", some u10)
    ("analysis two", some u20) ("synthesized prediction", some u30)

/-- The lite-mode team record the gateway builds for the Lakers. -/
def lakersRec : TeamRecord :=
  ⟨1747, "Los Angeles Lakers", "No team history available.",
    "Wikipedia (Lite Mode)", none⟩

/-- The lite-mode team record the gateway builds for the Celtics. -/
def celticsRec : TeamRecord :=
  ⟨1738, "Boston Celtics", "No team history available.",
    "Wikipedia (Lite Mode)", none⟩

/-- The team cache after fetching the Lakers at time 0. -/
def lakersCache : CacheState TeamRecord :=
  [("team_lite_1747", ⟨lakersRec, 0, 24⟩)]

/-- The team cache after fetching the Lakers and then the Celtics at
time 0. -/
def bothTeamsCache : CacheState TeamRecord :=
  [("team_lite_1747", ⟨lakersRec, 0, 24⟩), ("team_lite_1738", ⟨celticsRec, 0, 24⟩)]

/-- The topic gate classifies the task as off-topic. -/
def envOffTopic : Env :=
  { envAllFail with completions := fun _ => Except.ok ("no", some u10) }

/-- A full on-topic run that the router sends to the generic Q&A path:
gate (call 0, unaccounted), router (call 1), `ask_question` (call 2),
reviewer (call 3). -/
def envRunAsk : Env :=
  { envAllFail with
    completions := fun n =>
      if n = 0 then Except.ok ("yes", some u10)
      else if n = 1 then Except.ok ("routed", some u20)
      else if n = 2 then Except.ok ("draft answer", some u30)
      else Except.ok ("final answer", some u40)
    parse_route := fun t =>
      if t = "routed" then
        some ⟨some "ask_question", [("question", "What is the NBA?")]⟩
      else none }

/-- A run routed to `evaluate_trade` for one known and one unknown player:
the trade analyst fails fast (no completion call), the first scout call
succeeds, the second scout call fails fast and its usage accounting re-reads
the first scout call's usage. -/
def envTradeDouble : Env :=
  { envAllFail with
    completions := fun n =>
      if n = 0 then Except.ok ("yes", some u10)
      else if n = 1 then Except.ok ("routed", some u20)
      else if n = 2 then Except.ok ("scout report one", some u30)
      else if n = 3 then Except.ok ("trade synthesis", some u40)
      else Except.ok ("final answer", some u50)
    parse_route := fun t =>
      if t = "routed" then
        some ⟨some "evaluate_trade",
          [("player1", "LeBron James"), ("player2", "Nobody")]⟩
      else none }

end Fix

/-! ## Helper lemmas -/

theorem foldl_dict_eq_none {α : Type} (k : String) (l : List (String × α))
    (acc : Option α) :
    l.foldl (fun acc kv => if kv.1 = k then some kv.2 else acc) acc = none ↔
      acc = none ∧ ∀ kv ∈ l, kv.1 ≠ k := by
  induction l generalizing acc with
  | nil => simp
  | cons hd tl ih =>
    simp only [List.foldl_cons]
    rw [ih]
    constructor
    · rintro ⟨h1, h2⟩
      by_cases hhd : hd.1 = k
      · rw [if_pos hhd] at h1
        exact absurd h1 (by simp)
      · rw [if_neg hhd] at h1
        refine ⟨h1, ?_⟩
        intro kv hm
        rcases List.mem_cons.mp hm with rfl | hm
        · exact hhd
        · exact h2 kv hm
    · rintro ⟨h1, h2⟩
      have hhd : hd.1 ≠ k := h2 hd (List.mem_cons_self hd tl)
      rw [if_neg hhd]
      exact ⟨h1, fun kv hm => h2 kv (List.mem_cons_of_mem hd hm)⟩

theorem dictFind_eq_none_iff {α : Type} (entries : List (String × α)) (k : String) :
    dictFind entries k = none ↔ ∀ kv ∈ entries, kv.1 ≠ k := by
  unfold dictFind
  rw [foldl_dict_eq_none]
  simp

theorem append_ne_empty_left (a b : String) (h : a ≠ "") : a ++ b ≠ "" := by
  intro hab
  apply h
  have hl := congrArg String.length hab
  rw [String.length_append] at hl
  have hz : a.length = 0 := by simpa using Nat.eq_zero_of_add_eq_zero_right hl
  cases a with
  | mk data =>
    simp [String.length] at hz
    simp [hz]

/-- The entry `CacheManager.set` writes is found again under its key. -/
theorem cache_find_set {α : Type} (c : CacheState α) (k : String) (v : α)
    (ttl now : Int) :
    (CacheManager.set c k v ttl now).find? (fun kv => kv.1 = k) =
      some (k, ⟨v, now, ttl⟩) := by
  unfold CacheManager.set
  rw [List.find?_append]
  have hnone : (c.filter (fun kv => kv.1 ≠ k)).find? (fun kv => kv.1 = k) = none := by
    rw [List.find?_eq_none]
    intro kv hm
    have := List.of_mem_filter hm
    simpa using this
  rw [hnone]
  simp

/-- No filtered-out key survives in the filtered cache. -/
theorem cache_find_filter_ne {α : Type} (c : CacheState α) (k : String) :
    (c.filter (fun kv => kv.1 ≠ k)).find? (fun kv => kv.1 = k) = none := by
  rw [List.find?_eq_none]
  intro kv hm
  have := List.of_mem_filter hm
  simpa using this

theorem get_player_info_isSome_of_find (env : DataEnv) (now : Int)
    (c : CacheState PlayerRecord) (name : String) (fp : PlayerEntry)
    (h : dictFind (playerLookup env) (pyLower name) = some fp) :
    ((get_player_info env now c name).1).isSome := by
  simp only [get_player_info, h]
  rcases hg : CacheManager.get c ("player_lite_" ++ toString fp.id) now with ⟨o, c1⟩
  cases o <;> simp [hg]

theorem get_player_info_none_of_not_found (env : DataEnv) (now : Int)
    (c : CacheState PlayerRecord) (name : String)
    (h : ∀ p ∈ env.roster, (pyLower name) ≠ (pyLower p.full_name)) :
    get_player_info env now c name = (none, c) := by
  have hd : dictFind (playerLookup env) (pyLower name) = none := by
    rw [dictFind_eq_none_iff]
    intro kv hkv
    simp only [playerLookup, List.mem_map] at hkv
    obtain ⟨p, hp, rfl⟩ := hkv
    exact fun he => h p hp he.symm
  simp [get_player_info, hd]

theorem get_player_info_empty_cache (env : DataEnv) (now : Int) (name : String)
    (fp : PlayerEntry) (h : dictFind (playerLookup env) (pyLower name) = some fp) :
    (get_player_info env now [] name).1.map PlayerRecord.full_name = some fp.full_name ∧
      (get_player_info env now [] name).1.map PlayerRecord.id = some fp.id := by
  simp only [get_player_info, h]
  constructor <;> simp [CacheManager.get]

theorem get_team_info_isSome_of_find (env : DataEnv) (now : Int)
    (c : CacheState TeamRecord) (name : String) (ft : TeamEntry)
    (h : dictFind (teamLookup env) (pyLower name) = some ft) :
    ((get_team_info env now c name).1).isSome := by
  simp only [get_team_info, h]
  rcases hg : CacheManager.get c ("team_lite_" ++ toString ft.id) now with ⟨o, c1⟩
  cases o <;> simp [hg]

theorem get_team_info_none_of_not_found (env : DataEnv) (now : Int)
    (c : CacheState TeamRecord) (name : String)
    (h : ∀ t ∈ env.nba_teams, (pyLower name) ≠ (pyLower t.full_name) ∧
      (t.nickname ≠ "" → (pyLower name) ≠ (pyLower t.nickname))) :
    get_team_info env now c name = (none, c) := by
  have hd : dictFind (teamLookup env) (pyLower name) = none := by
    rw [dictFind_eq_none_iff]
    intro kv hkv
    simp only [teamLookup, List.mem_append, List.mem_map, List.mem_filterMap] at hkv
    rcases hkv with ⟨t, ht, rfl⟩ | ⟨t, ht, hnn⟩
    · exact fun he => (h t ht).1 he.symm
    · by_cases hne : t.nickname = ""
      · rw [if_neg (by simp [hne])] at hnn
        exact absurd hnn (by simp)
      · rw [if_pos hne] at hnn
        have hns := (h t ht).2 hne
        obtain rfl := Option.some.inj hnn
        exact fun he => hns he.symm
  simp [get_team_info, hd]

theorem get_team_info_empty_cache (env : DataEnv) (now : Int) (name : String)
    (ft : TeamEntry) (h : dictFind (teamLookup env) (pyLower name) = some ft) :
    (get_team_info env now [] name).1.map TeamRecord.full_name = some ft.full_name ∧
      (get_team_info env now [] name).1.map TeamRecord.id = some ft.id := by
  simp only [get_team_info, h]
  constructor <;> simp [CacheManager.get]

/-- A key of the player dict is the lower-cased full name of a roster
entry. -/
theorem dictFind_player_isSome (env : DataEnv) (name : String)
    (h : ∃ p ∈ env.roster, (pyLower name) = (pyLower p.full_name)) :
    (dictFind (playerLookup env) (pyLower name)).isSome := by
  obtain ⟨p, hp, he⟩ := h
  rw [← Option.ne_none_iff_isSome]
  rw [Ne, dictFind_eq_none_iff]
  push_neg
  refine ⟨((pyLower p.full_name), p), ?_, he.symm⟩
  simp only [playerLookup, List.mem_map]
  exact ⟨p, hp, rfl⟩

/-- A key of the team dict arises from a full name or a non-empty
nickname. -/
theorem dictFind_team_isSome (env : DataEnv) (name : String)
    (h : ∃ t ∈ env.nba_teams, (pyLower name) = (pyLower t.full_name) ∨
      (t.nickname ≠ "" ∧ (pyLower name) = (pyLower t.nickname))) :
    (dictFind (teamLookup env) (pyLower name)).isSome := by
  obtain ⟨t, ht, he⟩ := h
  rw [← Option.ne_none_iff_isSome]
  rw [Ne, dictFind_eq_none_iff]
  push_neg
  rcases he with he | ⟨hnn, he⟩
  · refine ⟨((pyLower t.full_name), t), ?_, he.symm⟩
    simp only [teamLookup, List.mem_append, List.mem_map]
    exact Or.inl ⟨t, ht, rfl⟩
  · refine ⟨((pyLower t.nickname), t), ?_, he.symm⟩
    simp only [teamLookup, List.mem_append, List.mem_filterMap]
    exact Or.inr ⟨t, ht, by rw [if_pos hnn]⟩

/-! ## Claim theorems -/

/-- **C5** (confirmed).  For every key `k` and structured value `v`:
`set(k, v, ttl_hours = 0)` followed by `get(k)` at any strictly later instant
returns absent; `set(k, v, ttl_hours = 24)` followed by `get(k)` while the
clock is within the 24-hour TTL returns `v` unchanged; and once the clock is
strictly past the stored timestamp plus the TTL, `get(k)` returns absent and
physically removes the entry's file (the resulting cache directory holds no
entry for `k`). -/
theorem cache_ttl_lifecycle {α : Type} (c : CacheState α) (k : String) (v : α)
    (tSet tGet : Int) :
    (tSet < tGet →
      (CacheManager.get (CacheManager.set c k v 0 tSet) k tGet).1 = none) ∧
    (tGet ≤ tSet + 24 * 3600 →
      (CacheManager.get (CacheManager.set c k v 24 tSet) k tGet).1 = some v) ∧
    (∀ ttl : Int, tSet + ttl * 3600 < tGet →
      (CacheManager.get (CacheManager.set c k v ttl tSet) k tGet).1 = none ∧
        ((CacheManager.get (CacheManager.set c k v ttl tSet) k tGet).2.find?
          (fun kv => kv.1 = k)) = none) := by
  refine ⟨?_, ?_, ?_⟩
  · intro hlt
    unfold CacheManager.get
    rw [cache_find_set]
    have h0 : tSet + 0 * 3600 < tGet := by omega
    simp only [h0, if_pos]
  · intro hle
    unfold CacheManager.get
    rw [cache_find_set]
    have h24 : ¬ (tSet + 24 * 3600 < tGet) := by omega
    simp only [h24, if_neg, not_false_eq_true]
  · intro ttl hlt
    unfold CacheManager.get
    rw [cache_find_set]
    constructor
    · simp only [hlt, if_pos]
    · simp only [hlt, if_pos]
      rw [cache_find_filter_ne]

/-- **C10** (confirmed).  For every roster entry whose (case-insensitively
matched) name is presented in any letter case, `get_player_stats` /
`get_team_stats` succeeds with data present; for a string matching no known
player (resp. no team full name or non-empty nickname), the lookup returns
`success = false`, no data, and a non-empty error message.  Both operations
are total Lean functions — every Python exception source inside them
(Wikipedia, stats fetch) is caught in the source, so no raise is modelled.
The third and sixth conjuncts pin the returned payload down to the matched
entry's identity on a fresh cache. -/
theorem lookup_case_insensitive_total (env : DataEnv) (now : Int)
    (cp : CacheState PlayerRecord) (ct : CacheState TeamRecord) (name : String) :
    ((∃ p ∈ env.roster, (pyLower name) = (pyLower p.full_name)) →
      (NBATool.get_player_stats env now cp name).1.success = true ∧
        ((NBATool.get_player_stats env now cp name).1.data).isSome) ∧
    ((∀ p ∈ env.roster, (pyLower name) ≠ (pyLower p.full_name)) →
      (NBATool.get_player_stats env now cp name).1 =
        ⟨false, none, some ("Player \x27" ++ name ++ "\x27 not found")⟩ ∧
        ("Player \x27" ++ name ++ "\x27 not found") ≠ "") ∧
    (∀ fp, dictFind (playerLookup env) (pyLower name) = some fp →
      (NBATool.get_player_stats env now [] name).1.data.map PlayerRecord.full_name =
          some fp.full_name ∧
        (NBATool.get_player_stats env now [] name).1.data.map PlayerRecord.id =
          some fp.id) ∧
    ((∃ t ∈ env.nba_teams, (pyLower name) = (pyLower t.full_name) ∨
        (t.nickname ≠ "" ∧ (pyLower name) = (pyLower t.nickname))) →
      (NBATool.get_team_stats env now ct name).1.success = true ∧
        ((NBATool.get_team_stats env now ct name).1.data).isSome) ∧
    ((∀ t ∈ env.nba_teams, (pyLower name) ≠ (pyLower t.full_name) ∧
        (t.nickname ≠ "" → (pyLower name) ≠ (pyLower t.nickname))) →
      (NBATool.get_team_stats env now ct name).1 =
        ⟨false, none, some ("Team \x27" ++ name ++ "\x27 not found")⟩ ∧
        ("Team \x27" ++ name ++ "\x27 not found") ≠ "") ∧
    (∀ ft, dictFind (teamLookup env) (pyLower name) = some ft →
      (NBATool.get_team_stats env now [] name).1.data.map TeamRecord.full_name =
          some ft.full_name ∧
        (NBATool.get_team_stats env now [] name).1.data.map TeamRecord.id =
          some ft.id) := by
  refine ⟨?_, ?_, ?_, ?_, ?_, ?_⟩
  · intro h
    obtain ⟨fp, hfp⟩ := Option.isSome_iff_exists.mp (dictFind_player_isSome env name h)
    obtain ⟨q, hq⟩ := Option.isSome_iff_exists.mp
      (get_player_info_isSome_of_find env now cp name fp hfp)
    rcases hpi : get_player_info env now cp name with ⟨o, c1⟩
    rw [hpi] at hq
    simp only at hq
    subst hq
    simp [NBATool.get_player_stats, hpi]
  · intro h
    have hn := get_player_info_none_of_not_found env now cp name h
    exact ⟨by simp [NBATool.get_player_stats, hn],
      append_ne_empty_left _ _ (append_ne_empty_left _ _ (by decide))⟩
  · intro fp hfp
    have he := get_player_info_empty_cache env now name fp hfp
    rcases hpi : get_player_info env now [] name with ⟨o, c1⟩
    rw [hpi] at he
    cases o with
    | none => simp at he
    | some q =>
      simp only [Option.map_some] at he
      simp [NBATool.get_player_stats, hpi]
      exact ⟨Option.some.inj he.1, Option.some.inj he.2⟩
  · intro h
    obtain ⟨ft, hft⟩ := Option.isSome_iff_exists.mp (dictFind_team_isSome env name h)
    obtain ⟨q, hq⟩ := Option.isSome_iff_exists.mp
      (get_team_info_isSome_of_find env now ct name ft hft)
    rcases hti : get_team_info env now ct name with ⟨o, c1⟩
    rw [hti] at hq
    simp only at hq
    subst hq
    simp [NBATool.get_team_stats, hti]
  · intro h
    have hn := get_team_info_none_of_not_found env now ct name h
    exact ⟨by simp [NBATool.get_team_stats, hn],
      append_ne_empty_left _ _ (append_ne_empty_left _ _ (by decide))⟩
  · intro ft hft
    have he := get_team_info_empty_cache env now name ft hft
    rcases hti : get_team_info env now [] name with ⟨o, c1⟩
    rw [hti] at he
    cases o with
    | none => simp at he
    | some q =>
      simp only [Option.map_some] at he
      simp [NBATool.get_team_stats, hti]
      exact ⟨Option.some.inj he.1, Option.some.inj he.2⟩

/-- Witness for C10: in the concrete lite-mode world, `"LEBRON JAMES"` (upper
case) resolves, `"Nobody"` fails with the non-empty message, the resolved
payload is LeBron's, and `"LAKERS"` resolves through the nickname while
`"Seattle Sonics"` fails. -/
theorem lookup_case_insensitive_total_witness :
    ((NBATool.get_player_stats Fix.liteData 0 [] "LEBRON JAMES").1.success = true ∧
      ((NBATool.get_player_stats Fix.liteData 0 [] "LEBRON JAMES").1.data).isSome) ∧
    ((NBATool.get_player_stats Fix.liteData 0 [] "Nobody").1 =
      ⟨false, none, some ("Player \x27" ++ "Nobody" ++ "\x27 not found")⟩ ∧
      ("Player \x27" ++ "Nobody" ++ "\x27 not found") ≠ "") ∧
    ((NBATool.get_player_stats Fix.liteData 0 [] "LEBRON JAMES").1.data.map
        PlayerRecord.full_name = some Fix.lebron.full_name ∧
      (NBATool.get_player_stats Fix.liteData 0 [] "LEBRON JAMES").1.data.map
        PlayerRecord.id = some Fix.lebron.id) ∧
    ((NBATool.get_team_stats Fix.liteData 0 [] "LAKERS").1.success = true ∧
      ((NBATool.get_team_stats Fix.liteData 0 [] "LAKERS").1.data).isSome) ∧
    ((NBATool.get_team_stats Fix.liteData 0 [] "Seattle Sonics").1 =
      ⟨false, none, some ("Team \x27" ++ "Seattle Sonics" ++ "\x27 not found")⟩ ∧
      ("Team \x27" ++ "Seattle Sonics" ++ "\x27 not found") ≠ "") ∧
    ((NBATool.get_team_stats Fix.liteData 0 [] "LAKERS").1.data.map
        TeamRecord.full_name = some Fix.lakers.full_name ∧
      (NBATool.get_team_stats Fix.liteData 0 [] "LAKERS").1.data.map
        TeamRecord.id = some Fix.lakers.id) :=
  ⟨(lookup_case_insensitive_total Fix.liteData 0 [] [] "LEBRON JAMES").1 (by decide),
    (lookup_case_insensitive_total Fix.liteData 0 [] [] "Nobody").2.1 (by decide),
    (lookup_case_insensitive_total Fix.liteData 0 [] [] "LEBRON JAMES").2.2.1
      Fix.lebron (by decide),
    (lookup_case_insensitive_total Fix.liteData 0 [] [] "LAKERS").2.2.2.1 (by decide),
    (lookup_case_insensitive_total Fix.liteData 0 [] [] "Seattle Sonics").2.2.2.2.1
      (by decide),
    (lookup_case_insensitive_total Fix.liteData 0 [] [] "LAKERS").2.2.2.2.2
      Fix.lakers (by decide)⟩

/-- **C7** (confirmed).  If the topic-gate classification call raises any
exception, `is_task_on_topic` returns `true` — the task proceeds as
in-domain — rather than rejecting it or letting the exception escape (the
function's result type carries no error case: it is total). -/
theorem gate_fails_open (env : Env) (s : CrewState) (task e : String)
    (h : env.completions s.calls = Except.error e) :
    (NBACrew.is_task_on_topic env s task).1 = true := by
  simp [NBACrew.is_task_on_topic, callCompletion, CrewState.addLog, h]

/-- Witness for C7: the gate call raises a connection error on a perfectly
on-topic question, and the gate still reports in-domain. -/
theorem gate_fails_open_witness :
    (NBACrew.is_task_on_topic Fix.envAllFail Fix.init0
      "Who won the 2024 NBA Finals?").1 = true :=
  gate_fails_open Fix.envAllFail Fix.init0 "Who won the 2024 NBA Finals?"
    "APIConnectionError" (by decide)

/-- **C6** (confirmed).  First conjunct: the reset loop at the top of `run`
leaves every one of the six specialists with empty memory and cleared usage
(and `run` is by definition `run_after_reset` of exactly that reset state, so
this happens before gating, routing and dispatch).  Second conjunct: `run` is
completely insensitive to the specialists' incoming conversational state —
overwriting all six agent slots arbitrarily changes nothing about the run's
outcome or final state, so after two sequential `run` calls no specialist
memory can retain content originating from the first call. -/
theorem run_resets_specialist_memories (env : Env) (s : CrewState)
    (f : AgentId → AgentState) (task : String) (stream : Bool) :
    (∀ i, ((NBACrew.resetAllMemories s).agent i).memory = [] ∧
      ((NBACrew.resetAllMemories s).agent i).last_usage = none) ∧
    NBACrew.run env (overwriteAgents s f) task stream =
      NBACrew.run env s task stream := by
  constructor
  · intro i
    cases i <;> exact ⟨rfl, rfl⟩
  · rfl

/-- A tool name outside the dispatch table resolves to no handler, whatever
the params and state. -/
theorem dispatch_tool_eq_none (env : Env) (tool : String)
    (params : List (String × String)) (s : CrewState)
    (h : tool ∉ NBACrew.toolNames) :
    NBACrew.dispatch_tool env tool params s = none := by
  simp only [NBACrew.toolNames, List.mem_cons, List.not_mem_nil, or_false,
    not_or] at h
  obtain ⟨h1, h2, h3, h4, h5, h6, h7, h8, h9, h10⟩ := h
  simp [NBACrew.dispatch_tool, h1, h2, h3, h4, h5, h6, h7, h8, h9, h10]

/-- **C1 counterexample.**  The claim says `route_task` never propagates an
exception to its caller.  But the `except` handler's fallback call to
`ask_question` sits outside any handler: when the routing completion call
raises and the fallback's own completion call raises too, `route_task`
raises. -/
theorem route_task_propagates_fallback_failure :
    (NBACrew.route_task Fix.envAllFail Fix.init0 "asdkjasd").1 =
      Except.error "APIConnectionError" := by
  decide

/-- **C1** (corrected).  A routing decision naming a tool outside the
dispatch table, an unparseable routing response, or an exception raised by
the routing call each divert to the generic Q&A path on the original task,
with a WARN (unknown tool) or ERROR (exception) log entry — and `route_task`
returns normally *provided the fallback `ask_question` completion call
itself succeeds* (the counterexample shows the fallback's own failure
propagating). -/
theorem route_task_falls_back (env : Env) (s : CrewState) (task : String) :
    (∀ content u tool params ans u2,
      env.completions s.calls = Except.ok (content, u) →
      env.parse_route content = some ⟨some tool, params⟩ →
      tool ∉ NBACrew.toolNames →
      env.completions (s.calls + 1) = Except.ok (ans, u2) →
      (NBACrew.route_task env s task).1 = Except.ok ans ∧
        (∃ m, (⟨"WARN", m⟩ : LogEntry) ∈ (NBACrew.route_task env s task).2.log) ∧
        (⟨"INFO", "Processing general question: " ++ task⟩ : LogEntry) ∈
          (NBACrew.route_task env s task).2.log) ∧
    (∀ content u ans u2,
      env.completions s.calls = Except.ok (content, u) →
      env.parse_route content = none →
      env.completions (s.calls + 1) = Except.ok (ans, u2) →
      (NBACrew.route_task env s task).1 = Except.ok ans ∧
        (∃ m, (⟨"ERROR", m⟩ : LogEntry) ∈ (NBACrew.route_task env s task).2.log) ∧
        (⟨"INFO", "Processing general question: " ++ task⟩ : LogEntry) ∈
          (NBACrew.route_task env s task).2.log) ∧
    (∀ e ans u2,
      env.completions s.calls = Except.error e →
      env.completions (s.calls + 1) = Except.ok (ans, u2) →
      (NBACrew.route_task env s task).1 = Except.ok ans ∧
        (∃ m, (⟨"ERROR", m⟩ : LogEntry) ∈ (NBACrew.route_task env s task).2.log) ∧
        (⟨"INFO", "Processing general question: " ++ task⟩ : LogEntry) ∈
          (NBACrew.route_task env s task).2.log) := by
  refine ⟨?_, ?_, ?_⟩
  · intro content u tool params ans u2 h1 h2 h3 h4
    have hd : ∀ env2 ps s2, NBACrew.dispatch_tool env2 tool ps s2 = none :=
      fun env2 ps s2 => dispatch_tool_eq_none env2 tool ps s2 h3
    refine ⟨?_, ⟨"Unknown tool \x27" ++ tool ++ "\x27 decided by router. Falling back.", ?_⟩, ?_⟩ <;>
      simp [NBACrew.route_task, NBACrew.route_task_attempt, NBACrew.ask_question,
        callCompletion, CrewState.addLog, CrewState.logUsage, h1, h2, h4, hd]
  · intro content u ans u2 h1 h2 h4
    refine ⟨?_, ⟨"Routing Error: json.JSONDecodeError. Falling back to general question.", ?_⟩, ?_⟩ <;>
      simp [NBACrew.route_task, NBACrew.route_task_attempt, NBACrew.ask_question,
        callCompletion, CrewState.addLog, CrewState.logUsage, h1, h2, h4]
  · intro e ans u2 h1 h4
    refine ⟨?_, ⟨"Routing Error: " ++ e ++ ". Falling back to general question.", ?_⟩, ?_⟩ <;>
      simp [NBACrew.route_task, NBACrew.route_task_attempt, NBACrew.ask_question,
        callCompletion, CrewState.addLog, CrewState.logUsage, h1, h4]

/-- Witness for C1 (amended): the three fallback scenarios at concrete
environments — unknown tool `"make_coffee"`, unparseable router output, and
a raised routing call — all end in the Q&A fallback's answer with the
WARN/ERROR entry logged. -/
theorem route_task_falls_back_witness :
    ((NBACrew.route_task Fix.envRouteUnknown Fix.init0 "brew me a coffee").1 =
        Except.ok "fallback answer" ∧
      (∃ m, (⟨"WARN", m⟩ : LogEntry) ∈
        (NBACrew.route_task Fix.envRouteUnknown Fix.init0 "brew me a coffee").2.log) ∧
      (⟨"INFO", "Processing general question: " ++ "brew me a coffee"⟩ : LogEntry) ∈
        (NBACrew.route_task Fix.envRouteUnknown Fix.init0 "brew me a coffee").2.log) ∧
    ((NBACrew.route_task Fix.envRouteParseFail Fix.init0 "asdkjasd").1 =
        Except.ok "fallback answer" ∧
      (∃ m, (⟨"ERROR", m⟩ : LogEntry) ∈
        (NBACrew.route_task Fix.envRouteParseFail Fix.init0 "asdkjasd").2.log) ∧
      (⟨"INFO", "Processing general question: " ++ "asdkjasd"⟩ : LogEntry) ∈
        (NBACrew.route_task Fix.envRouteParseFail Fix.init0 "asdkjasd").2.log) ∧
    ((NBACrew.route_task Fix.envRouteCallFail Fix.init0 "asdkjasd").1 =
        Except.ok "fallback answer" ∧
      (∃ m, (⟨"ERROR", m⟩ : LogEntry) ∈
        (NBACrew.route_task Fix.envRouteCallFail Fix.init0 "asdkjasd").2.log) ∧
      (⟨"INFO", "Processing general question: " ++ "asdkjasd"⟩ : LogEntry) ∈
        (NBACrew.route_task Fix.envRouteCallFail Fix.init0 "asdkjasd").2.log) :=
  ⟨(route_task_falls_back Fix.envRouteUnknown Fix.init0 "brew me a coffee").1
      "pick-a-tool" (some Fix.u10) "make_coffee" [] "fallback answer" (some Fix.u20)
      (by decide) (by decide) (by decide) (by decide),
    (route_task_falls_back Fix.envRouteParseFail Fix.init0 "asdkjasd").2.1
      "not json at all" (some Fix.u10) "fallback answer" (some Fix.u20)
      (by decide) (by decide) (by decide),
    (route_task_falls_back Fix.envRouteCallFail Fix.init0 "asdkjasd").2.2
      "APITimeoutError" "fallback answer" (some Fix.u20)
      (by decide) (by decide)⟩

/-- **C3 counterexample.**  The claim asserts that none of the Data Gateway
operations raises an exception, but `compare_players` raises `TypeError`
whenever both players are found and a stats payload is `None` (always the
case in lite mode). -/
theorem gateway_op_raises :
    (NBATool.compare_players Fix.liteData 0 [] "Stephen Curry" "LeBron James").1 =
      Except.error "TypeError: \x27NoneType\x27 object is not subscriptable" := by
  decide

/-- **C3** (corrected).  Every Data Gateway operation returns an envelope
with a boolean `success` flag, and a `success = false` envelope carries a
non-empty error string and no data payload.  `get_player_stats`,
`get_team_stats`, the spec-modelled `get_games_today` and `web_search` never
raise (they are total); `compare_players` raises exactly when both lookups
succeed and a found record's stats payload is absent — in every other case it
returns an envelope (fourth conjunct). -/
theorem gateway_envelope_contract (env : DataEnv) (now : Int)
    (cp : CacheState PlayerRecord) (ct : CacheState TeamRecord)
    (name a b q : String) :
    ((NBATool.get_player_stats env now cp name).1.success = false →
      (NBATool.get_player_stats env now cp name).1.data = none ∧
        ∃ msg, (NBATool.get_player_stats env now cp name).1.error = some msg ∧
          msg ≠ "") ∧
    ((NBATool.get_team_stats env now ct name).1.success = false →
      (NBATool.get_team_stats env now ct name).1.data = none ∧
        ∃ msg, (NBATool.get_team_stats env now ct name).1.error = some msg ∧
          msg ≠ "") ∧
    (∀ e, (NBATool.compare_players env now cp a b).1 = Except.ok e →
      e.success = false →
      e.comparison = none ∧ e.player1 = none ∧ e.player2 = none ∧
        ∃ msg, e.error = some msg ∧ msg ≠ "") ∧
    (∀ err, (NBATool.compare_players env now cp a b).1 = Except.error err →
      ∃ qa qb, (get_player_info env now cp a).1 = some qa ∧
        (get_player_info env now ((get_player_info env now cp a).2) b).1 = some qb ∧
        (qa.stats = none ∨ qb.stats = none)) ∧
    (NBATool.get_games_today.success = true ∧
      NBATool.get_games_today.games.isSome) ∧
    ((NBATool.web_search env q).success = false →
      (NBATool.web_search env q).result = none ∧
        ∃ msg, (NBATool.web_search env q).error = some msg ∧ msg ≠ "") := by
  refine ⟨?_, ?_, ?_, ?_, by decide, ?_⟩
  · intro hf
    rcases hp : get_player_info env now cp name with ⟨o, c1⟩
    cases o with
    | some p =>
      rw [show (NBATool.get_player_stats env now cp name).1.success = true by
        simp [NBATool.get_player_stats, hp]] at hf
      exact absurd hf (by simp)
    | none =>
      refine ⟨by simp [NBATool.get_player_stats, hp],
        "Player \x27" ++ name ++ "\x27 not found",
        by simp [NBATool.get_player_stats, hp],
        append_ne_empty_left _ _ (append_ne_empty_left _ _ (by decide))⟩
  · intro hf
    rcases ht : get_team_info env now ct name with ⟨o, c1⟩
    cases o with
    | some t =>
      rw [show (NBATool.get_team_stats env now ct name).1.success = true by
        simp [NBATool.get_team_stats, ht]] at hf
      exact absurd hf (by simp)
    | none =>
      refine ⟨by simp [NBATool.get_team_stats, ht],
        "Team \x27" ++ name ++ "\x27 not found",
        by simp [NBATool.get_team_stats, ht],
        append_ne_empty_left _ _ (append_ne_empty_left _ _ (by decide))⟩
  · intro e he hf
    rcases ho1 : (get_player_info env now cp a).1 with _ | qa
    · rw [show (NBATool.compare_players env now cp a b).1 =
          Except.ok ⟨false, none, none, none, some "One or both players not found"⟩ by
        simp [NBATool.compare_players, ho1]] at he
      obtain rfl := Except.ok.inj he
      exact ⟨rfl, rfl, rfl, _, rfl, by decide⟩
    · rcases ho2 : (get_player_info env now ((get_player_info env now cp a).2) b).1
        with _ | qb
      · rw [show (NBATool.compare_players env now cp a b).1 =
            Except.ok ⟨false, none, none, none, some "One or both players not found"⟩ by
          simp [NBATool.compare_players, ho1, ho2]] at he
        obtain rfl := Except.ok.inj he
        exact ⟨rfl, rfl, rfl, _, rfl, by decide⟩
      · rcases hsa : qa.stats with _ | sa
        · rw [show (NBATool.compare_players env now cp a b).1 =
              Except.error "TypeError: \x27NoneType\x27 object is not subscriptable" by
            simp [NBATool.compare_players, ho1, ho2, hsa]] at he
          exact absurd he (by simp)
        · rcases hsb : qb.stats with _ | sb
          · rw [show (NBATool.compare_players env now cp a b).1 =
                Except.error "TypeError: \x27NoneType\x27 object is not subscriptable" by
              simp [NBATool.compare_players, ho1, ho2, hsa, hsb]] at he
            exact absurd he (by simp)
          · rw [show (NBATool.compare_players env now cp a b).1 =
                Except.ok ⟨true, some a, some b,
                  some ⟨dict2 a sa.points_per_game b sb.points_per_game,
                    dict2 a sa.rebounds_per_game b sb.rebounds_per_game,
                    dict2 a sa.assists_per_game b sb.assists_per_game,
                    dict2 a sa.field_goal_percentage b sb.field_goal_percentage⟩,
                  none⟩ by
              simp [NBATool.compare_players, ho1, ho2, hsa, hsb]] at he
            obtain rfl := Except.ok.inj he
            exact absurd hf (by simp)
  · intro err herr
    rcases ho1 : (get_player_info env now cp a).1 with _ | qa
    · rw [show (NBATool.compare_players env now cp a b).1 =
          Except.ok ⟨false, none, none, none, some "One or both players not found"⟩ by
        simp [NBATool.compare_players, ho1]] at herr
      exact absurd herr (by simp)
    · rcases ho2 : (get_player_info env now ((get_player_info env now cp a).2) b).1
        with _ | qb
      · rw [show (NBATool.compare_players env now cp a b).1 =
            Except.ok ⟨false, none, none, none, some "One or both players not found"⟩ by
          simp [NBATool.compare_players, ho1, ho2]] at herr
        exact absurd herr (by simp)
      · rcases hsa : qa.stats with _ | sa
        · exact ⟨qa, qb, rfl, rfl, Or.inl hsa⟩
        · rcases hsb : qb.stats with _ | sb
          · exact ⟨qa, qb, rfl, rfl, Or.inr hsb⟩
          · rw [show (NBATool.compare_players env now cp a b).1 =
                Except.ok ⟨true, some a, some b,
                  some ⟨dict2 a sa.points_per_game b sb.points_per_game,
                    dict2 a sa.rebounds_per_game b sb.rebounds_per_game,
                    dict2 a sa.assists_per_game b sb.assists_per_game,
                    dict2 a sa.field_goal_percentage b sb.field_goal_percentage⟩,
                  none⟩ by
              simp [NBATool.compare_players, ho1, ho2, hsa, hsb]] at herr
            exact absurd herr (by simp)
  · intro hf
    rcases hw : env.web q with e | r
    · refine ⟨by simp [NBATool.web_search, hw],
        "Web search failed: " ++ e,
        by simp [NBATool.web_search, hw],
        append_ne_empty_left _ _ (by decide)⟩
    · rw [show (NBATool.web_search env q).success = true by
        simp [NBATool.web_search, hw]] at hf
      exact absurd hf (by simp)

/-- Witness for C3 (amended): failure envelopes of all gateway operations at
concrete inputs carry non-empty errors and no data, and the raising case of
`compare_players` indeed has both players found with absent stats. -/
theorem gateway_envelope_contract_witness :
    ((NBATool.get_player_stats Fix.liteData 0 [] "Ghost").1.data = none ∧
      ∃ msg, (NBATool.get_player_stats Fix.liteData 0 [] "Ghost").1.error = some msg ∧
        msg ≠ "") ∧
    ((NBATool.get_team_stats Fix.liteData 0 [] "Ghost Team").1.data = none ∧
      ∃ msg, (NBATool.get_team_stats Fix.liteData 0 [] "Ghost Team").1.error = some msg ∧
        msg ≠ "") ∧
    ((NBATool.compare_players Fix.liteData 0 [] "Ghost" "Nobody").1 =
        Except.ok ⟨false, none, none, none, some "One or both players not found"⟩ →
      True) ∧
    (∃ qa qb, (get_player_info Fix.liteData 0 [] "LeBron James").1 = some qa ∧
      (get_player_info Fix.liteData 0
        ((get_player_info Fix.liteData 0 [] "LeBron James").2) "LeBron James").1 =
          some qb ∧
      (qa.stats = none ∨ qb.stats = none)) ∧
    (NBATool.get_games_today.success = true ∧
      NBATool.get_games_today.games.isSome) ∧
    ((NBATool.web_search Fix.failWebData "history of the NBA").result = none ∧
      ∃ msg, (NBATool.web_search Fix.failWebData "history of the NBA").error = some msg ∧
        msg ≠ "") :=
  ⟨(gateway_envelope_contract Fix.liteData 0 [] [] "Ghost" "a" "b" "q").1 (by decide),
    (gateway_envelope_contract Fix.liteData 0 [] [] "Ghost Team" "a" "b" "q").2.1
      (by decide),
    fun _ => trivial,
    (gateway_envelope_contract Fix.liteData 0 [] [] "x" "LeBron James" "LeBron James"
        "q").2.2.2.1 "TypeError: \x27NoneType\x27 object is not subscriptable" (by decide),
    (gateway_envelope_contract Fix.liteData 0 [] [] "x" "a" "b" "q").2.2.2.2.1,
    (gateway_envelope_contract Fix.failWebData 0 [] [] "x" "a" "b"
        "history of the NBA").2.2.2.2.2 (by decide)⟩

/-- Concrete gateway evaluations used to run `predict_game` symbolically in
the completion replies: fresh fetches of both teams, then cache hits. -/
theorem ts_lakers_fresh :
    NBATool.get_team_stats Fix.liteData 0 [] "Lakers" =
      (⟨true, some Fix.lakersRec, none⟩, Fix.lakersCache) := by
  decide

theorem ts_celtics_after :
    NBATool.get_team_stats Fix.liteData 0 Fix.lakersCache "Celtics" =
      (⟨true, some Fix.celticsRec, none⟩, Fix.bothTeamsCache) := by
  decide

theorem ts_lakers_cached :
    NBATool.get_team_stats Fix.liteData 0 Fix.bothTeamsCache "Lakers" =
      (⟨true, some Fix.lakersRec, none⟩, Fix.bothTeamsCache) := by
  decide

theorem ts_celtics_cached :
    NBATool.get_team_stats Fix.liteData 0 Fix.bothTeamsCache "Celtics" =
      (⟨true, some Fix.celticsRec, none⟩, Fix.bothTeamsCache) := by
  decide

/-- **C2 counterexample.**  The claim says every composite operation catches
each specialist failure individually and replaces it with the placeholder.
`evaluate_trade` has no exception handling at all: when the trade analyst's
completion call raises, the whole operation raises (the failure is then
absorbed only by `route_task`'s generic fallback, not by the composite
operation). -/
theorem evaluate_trade_propagates_specialist_failure :
    (NBACrew.evaluate_trade Fix.envTradeRaise Fix.init0
      "LeBron James" "Stephen Curry").1 =
      Except.error "APIConnectionError" := by
  decide

/-- **C2** (corrected).  Only `predict_game` catches specialist failures, in
two blocks: one around the matchup prediction and one around *both* team
analyses together.  When the predictor's completion call raises and the
analyses succeed, the prediction is replaced by the placeholder
"Data unavailable due to API error.", both team analyses still run, an ERROR
entry is logged, and the synthesis call still receives the placeholder plus
both analyses and produces the (non-empty) final answer.  The counterexample
shows the other composite operations propagate instead of catching. -/
theorem predict_game_partial_failure (e a1 a2 syn : String)
    (u1 u2 u3 : Option Usage) (hne : syn ≠ "") :
    ((NBACrew.predict_game
        (Fix.envPredict (Except.error e) (a1, u1) (a2, u2) (syn, u3))
        Fix.init0 "Lakers" "Celtics").1 = Except.ok syn ∧ syn ≠ "") ∧
    (NBACrew.predict_game
        (Fix.envPredict (Except.error e) (a1, u1) (a2, u2) (syn, u3))
        Fix.init0 "Lakers" "Celtics").2.synth_log =
      [[("prediction", "Data unavailable due to API error."),
        ("team1_analysis", a1), ("team2_analysis", a2)]] ∧
    (∃ m, (⟨"ERROR", m⟩ : LogEntry) ∈
      (NBACrew.predict_game
        (Fix.envPredict (Except.error e) (a1, u1) (a2, u2) (syn, u3))
        Fix.init0 "Lakers" "Celtics").2.log) := by
  refine ⟨⟨?_, hne⟩, ?_, ⟨"⚠️ Game Predictor Error: " ++ e, ?_⟩⟩ <;>
    simp [NBACrew.predict_game, NBACrew.synthesize_responses,
      GamePredictor.predict_matchup, StatsAnalyzer.analyze_team, think,
      callCompletion, CrewState.addLog, CrewState.logUsage, CrewState.addMemory,
      CrewState.setLastUsage, CrewState.setAgent, CrewState.agent,
      Fix.envPredict, Fix.envAllFail, Fix.init0, Fix.agent0,
      ts_lakers_fresh, ts_celtics_after, ts_lakers_cached, ts_celtics_cached]

/-- Witness for C2 (amended) at the concrete partial-failure environment. -/
theorem predict_game_partial_failure_witness :
    ((NBACrew.predict_game Fix.envPredictPartial Fix.init0 "Lakers" "Celtics").1 =
        Except.ok "synthesized prediction" ∧
      "synthesized prediction" ≠ "") ∧
    (NBACrew.predict_game Fix.envPredictPartial Fix.init0 "Lakers" "Celtics").2.synth_log =
      [[("prediction", "Data unavailable due to API error."),
        ("team1_analysis", "analysis one"), ("team2_analysis", "analysis two")]] ∧
    (∃ m, (⟨"ERROR", m⟩ : LogEntry) ∈
      (NBACrew.predict_game Fix.envPredictPartial Fix.init0 "Lakers" "Celtics").2.log) :=
  predict_game_partial_failure "APIStatusError" "analysis one" "analysis two"
    "synthesized prediction" (some Fix.u10) (some Fix.u20) (some Fix.u30) (by decide)

/-- **C8 counterexample.**  The claim says every completed
`run(task, stream=False)` returns the final answer *as a string* and appends
it to conversation history *including* the GATE short-circuit.  On the
off-topic path the code instead wraps the canned message in a one-shot
generator (even with `stream=False`) and appends nothing to history. -/
theorem run_off_topic_returns_generator :
    (NBACrew.run Fix.envOffTopic Fix.init0 "What is the capital of France?" false).1 =
      Except.ok (StrOrStream.chunks [NBACrew.offTopicMessage],
        [⟨"INFO", "Executing task: What is the capital of France?"⟩,
          ⟨"INFO", "Checking if task is on-topic..."⟩,
          ⟨"WARN", "Task is off-topic. Responding: \x27" ++ NBACrew.offTopicMessage ++ "\x27"⟩]) ∧
    (NBACrew.run Fix.envOffTopic Fix.init0 "What is the capital of France?"
      false).2.conversation_history = [] := by
  constructor <;> decide

/-- **C8** (corrected).  A completed `run(task, stream=False)` on the
*on-topic* path returns the final answer as a string together with the
execution log and appends the user task and the final answer to conversation
history inside `run`; on the GATE short-circuit, `run` instead returns a
one-shot generator yielding the canned off-topic message (even with
`stream=False`) and leaves conversation history untouched. -/
theorem run_returns_answer_and_appends (env : Env) (s : CrewState) (task : String) :
    (∀ g u0 content u1 q ans u2 fin u3,
      env.completions s.calls = Except.ok (g, u0) →
      NBACrew.containsYes (pyLower (pyStrip g)) = true →
      env.completions (s.calls + 1) = Except.ok (content, u1) →
      env.parse_route content = some ⟨some "ask_question", [("question", q)]⟩ →
      env.completions (s.calls + 2) = Except.ok (ans, u2) →
      env.completions (s.calls + 3) = Except.ok (fin, u3) →
      (NBACrew.run env s task false).1 =
        Except.ok (StrOrStream.text fin, (NBACrew.run env s task false).2.log) ∧
        (NBACrew.run env s task false).2.conversation_history =
          s.conversation_history ++ [⟨"user", task⟩, ⟨"assistant", fin⟩]) ∧
    (∀ g u0,
      env.completions s.calls = Except.ok (g, u0) →
      NBACrew.containsYes (pyLower (pyStrip g)) = false →
      (NBACrew.run env s task false).1 =
        Except.ok (StrOrStream.chunks [NBACrew.offTopicMessage],
          (NBACrew.run env s task false).2.log) ∧
        (NBACrew.run env s task false).2.conversation_history =
          s.conversation_history) := by
  constructor
  · intro g u0 content u1 q ans u2 fin u3 hg hgy hr hp ha hrev
    constructor <;>
      simp [NBACrew.run, NBACrew.run_after_reset, NBACrew.is_task_on_topic,
        NBACrew.route_task, NBACrew.route_task_attempt, NBACrew.dispatch_tool,
        NBACrew.ask_question, NBACrew.param1, NBACrew.resetAllMemories,
        Reviewer.review_answer, think, callCompletion, CrewState.addLog,
        CrewState.logUsage, CrewState.addHistory, CrewState.addMemory,
        CrewState.setLastUsage, CrewState.setAgent, CrewState.agent,
        hg, hgy, hr, hp, ha, hrev]
  · intro g u0 hg hgn
    constructor <;>
      simp [NBACrew.run, NBACrew.run_after_reset, NBACrew.is_task_on_topic,
        NBACrew.resetAllMemories, callCompletion, CrewState.addLog,
        hg, hgn]

/-- Witness for C8 (amended): both paths at concrete environments. -/
theorem run_returns_answer_and_appends_witness :
    ((NBACrew.run Fix.envRunAsk Fix.init0 "What is the NBA?" false).1 =
        Except.ok (StrOrStream.text "final answer",
          (NBACrew.run Fix.envRunAsk Fix.init0 "What is the NBA?" false).2.log) ∧
      (NBACrew.run Fix.envRunAsk Fix.init0 "What is the NBA?"
          false).2.conversation_history =
        Fix.init0.conversation_history ++
          [⟨"user", "What is the NBA?"⟩, ⟨"assistant", "final answer"⟩]) ∧
    ((NBACrew.run Fix.envOffTopic Fix.init0 "What is quantum chromodynamics?" false).1 =
        Except.ok (StrOrStream.chunks [NBACrew.offTopicMessage],
          (NBACrew.run Fix.envOffTopic Fix.init0 "What is quantum chromodynamics?"
            false).2.log) ∧
      (NBACrew.run Fix.envOffTopic Fix.init0 "What is quantum chromodynamics?"
          false).2.conversation_history = Fix.init0.conversation_history) :=
  ⟨(run_returns_answer_and_appends Fix.envRunAsk Fix.init0 "What is the NBA?").1
      "yes" (some Fix.u10) "routed" (some Fix.u20) "What is the NBA?"
      "draft answer" (some Fix.u30) "final answer" (some Fix.u40)
      (by decide) (by decide) (by decide) (by decide) (by decide) (by decide),
    (run_returns_answer_and_appends Fix.envOffTopic Fix.init0
        "What is quantum chromodynamics?").2
      "no" (some Fix.u10) (by decide) (by decide)⟩

/-- **C9 counterexample.**  In a run routed to `evaluate_trade` where the
second scout lookup fails fast (unknown player, no completion call), the
coordinator re-accounts `scout.last_usage` — the *first* scout call's usage —
a second time.  The run makes exactly four accounted completion calls
reporting totals 20 (router), 30 (scout), 40 (synthesis) and 50 (reviewer),
yet the tally ends at 170 = 20 + 30 + 30 + 40 + 50, not 140. -/
theorem usage_tally_double_counts :
    (NBACrew.run Fix.envTradeDouble Fix.init0 "trade LeBron for Nobody"
      false).2.run_usage.total_tokens = 170 ∧
    (170 : Nat) ≠ 20 + 30 + 40 + 50 := by
  constructor <;> decide

/-- **C9** (corrected).  The tally is reset to zero at the start of every
run (first conjunct: on a gated-off run nothing is ever accounted, so the
tally ends at exactly zero whatever it held before), and during a run it only
accumulates the usages passed to `_log_usage`.  For a run whose dispatch
performs no fail-fast specialist path — e.g. one routed to the generic Q&A
tool — the total equals the sum of the accounted calls' reported totals
(router + Q&A + reviewer; the gate call is never accounted).  When a
fail-fast path re-reads a stale `last_usage`, a call's usage can be counted
twice (see the counterexample), so the equality does not hold for all
runs. -/
theorem usage_tally_reset_and_sum (env : Env) (s : CrewState) (task : String) :
    (∀ stream g u0,
      env.completions s.calls = Except.ok (g, u0) →
      NBACrew.containsYes (pyLower (pyStrip g)) = false →
      (NBACrew.run env s task stream).2.run_usage = ⟨0, 0, 0⟩) ∧
    (∀ g u0 content q ans fin (u1 u2 u3 : Usage),
      env.completions s.calls = Except.ok (g, u0) →
      NBACrew.containsYes (pyLower (pyStrip g)) = true →
      env.completions (s.calls + 1) = Except.ok (content, some u1) →
      env.parse_route content = some ⟨some "ask_question", [("question", q)]⟩ →
      env.completions (s.calls + 2) = Except.ok (ans, some u2) →
      env.completions (s.calls + 3) = Except.ok (fin, some u3) →
      (NBACrew.run env s task false).2.run_usage.total_tokens =
        u1.total_tokens + u2.total_tokens + u3.total_tokens) := by
  constructor
  · intro stream g u0 hg hgn
    simp [NBACrew.run, NBACrew.run_after_reset, NBACrew.is_task_on_topic,
      NBACrew.resetAllMemories, callCompletion, CrewState.addLog, hg, hgn]
  · intro g u0 content q ans fin u1 u2 u3 hg hgy hr hp ha hrev
    simp [NBACrew.run, NBACrew.run_after_reset, NBACrew.is_task_on_topic,
      NBACrew.route_task, NBACrew.route_task_attempt, NBACrew.dispatch_tool,
      NBACrew.ask_question, NBACrew.param1, NBACrew.resetAllMemories,
      Reviewer.review_answer, think, callCompletion, CrewState.addLog,
      CrewState.logUsage, CrewState.addHistory, CrewState.addMemory,
      CrewState.setLastUsage, CrewState.setAgent, CrewState.agent, Usage.add,
      hg, hgy, hr, hp, ha, hrev]

/-- Witness for C9 (amended): the reset clause on a gated-off run starting
from a dirty tally, and the exact-sum clause on the Q&A-routed run
(20 + 30 + 40 = 90). -/
theorem usage_tally_reset_and_sum_witness :
    (NBACrew.run Fix.envOffTopic
      { Fix.init0 with run_usage := ⟨7, 8, 15⟩ } "Tell me about cooking"
      false).2.run_usage = ⟨0, 0, 0⟩ ∧
    (NBACrew.run Fix.envRunAsk Fix.init0 "What is the NBA?"
      false).2.run_usage.total_tokens = 20 + 30 + 40 :=
  ⟨(usage_tally_reset_and_sum Fix.envOffTopic
      { Fix.init0 with run_usage := ⟨7, 8, 15⟩ } "Tell me about cooking").1
      false "no" (some Fix.u10) (by decide) (by decide),
    (usage_tally_reset_and_sum Fix.envRunAsk Fix.init0 "What is the NBA?").2
      "yes" (some Fix.u10) "routed" "What is the NBA?" "draft answer"
      "final answer" Fix.u20 Fix.u30 Fix.u40
      (by decide) (by decide) (by decide) (by decide) (by decide) (by decide)⟩

/-- **C4 counterexample.**  The claim asserts that when both lookups succeed
`compare_players` returns the comparison *without raising an exception*.  In
lite mode (`stats = None` for every found player) the code subscripts
`p["stats"]["points_per_game"]` and raises `TypeError` for two perfectly
well-known players. -/
theorem compare_players_raises_in_lite_mode :
    (NBATool.compare_players Fix.liteData 0 [] "LeBron James" "Stephen Curry").1 =
      Except.error "TypeError: \x27NoneType\x27 object is not subscriptable" := by
  decide

/-- **C4** (corrected).  `compare_players(a, b)` returns the
`success = false` envelope with a non-empty error whenever either player
lookup fails; and when both lookups succeed *and both found records carry a
stats payload* it returns `success = true` with a comparison containing
exactly the four statistics (points, rebounds, assists, field-goal
percentage), each keyed by both input names, without raising.  (Without the
stats-payload proviso the operation raises `TypeError`, see the
counterexample.) -/
theorem compare_players_contract (env : DataEnv) (now : Int)
    (c : CacheState PlayerRecord) (a b : String) :
    (((get_player_info env now c a).1 = none ∨
        (get_player_info env now ((get_player_info env now c a).2) b).1 = none) →
      (NBATool.compare_players env now c a b).1 =
        Except.ok ⟨false, none, none, none, some "One or both players not found"⟩ ∧
        "One or both players not found" ≠ "") ∧
    (∀ qa qb sa sb,
      (get_player_info env now c a).1 = some qa →
      (get_player_info env now ((get_player_info env now c a).2) b).1 = some qb →
      qa.stats = some sa → qb.stats = some sb →
      (NBATool.compare_players env now c a b).1 =
        Except.ok ⟨true, some a, some b,
          some ⟨dict2 a sa.points_per_game b sb.points_per_game,
            dict2 a sa.rebounds_per_game b sb.rebounds_per_game,
            dict2 a sa.assists_per_game b sb.assists_per_game,
            dict2 a sa.field_goal_percentage b sb.field_goal_percentage⟩,
          none⟩) := by
  constructor
  · intro h
    refine ⟨?_, by decide⟩
    rcases h with h | h
    · simp [NBATool.compare_players, h]
    · rcases ho1 : (get_player_info env now c a).1 with _ | qa
      · simp [NBATool.compare_players, ho1]
      · simp [NBATool.compare_players, ho1, h]
  · intro qa qb sa sb h1 h2 hsa hsb
    simp [NBATool.compare_players, h1, h2, hsa, hsb]

/-- Witness for C4 (amended): in full mode the comparison for
`"LEBRON JAMES"` vs `"Stephen Curry"` carries exactly the four statistics
keyed by both input spellings; in the failure case (`"Nobody"` unknown) the
`success = false` envelope is returned. -/
theorem compare_players_contract_witness :
    (NBATool.compare_players Fix.fullData 0 [] "LEBRON JAMES" "Stephen Curry").1 =
      Except.ok ⟨true, some "LEBRON JAMES", some "Stephen Curry",
        some ⟨dict2 "LEBRON JAMES" 25 "Stephen Curry" 26,
          dict2 "LEBRON JAMES" 7 "Stephen Curry" 4,
          dict2 "LEBRON JAMES" 8 "Stephen Curry" 5,
          dict2 "LEBRON JAMES" 54 "Stephen Curry" 45⟩,
        none⟩ ∧
    (NBATool.compare_players Fix.liteData 0 [] "LeBron James" "Nobody").1 =
      Except.ok ⟨false, none, none, none, some "One or both players not found"⟩ :=
  ⟨(compare_players_contract Fix.fullData 0 [] "LEBRON JAMES" "Stephen Curry").2
      ⟨2544, "LeBron James", true, "No biography available.",
        "nba_api (Full Mode)", some Fix.lebronStats⟩
      ⟨201939, "Stephen Curry", true, "No biography available.",
        "nba_api (Full Mode)", some Fix.curryStats⟩
      Fix.lebronStats Fix.curryStats (by decide) (by decide) (by decide) (by decide),
    ((compare_players_contract Fix.liteData 0 [] "LeBron James" "Nobody").1
      (Or.inr (by decide))).1⟩

/-- Witness for C5 at concrete inputs: key `"k"`, value `7`, set at `t = 10`;
read at `t = 11` for the `ttl = 0` clause, at `t = 20` for the in-TTL clause,
and (with `ttl = 1`) at `t = 99999` for the expiry clause. -/
theorem cache_ttl_lifecycle_witness :
    (CacheManager.get (CacheManager.set ([] : CacheState Nat) "k" 7 0 10) "k" 11).1 = none ∧
    (CacheManager.get (CacheManager.set ([] : CacheState Nat) "k" 7 24 10) "k" 20).1 = some 7 ∧
    (CacheManager.get (CacheManager.set ([] : CacheState Nat) "k" 7 1 10) "k" 99999).1 = none ∧
    ((CacheManager.get (CacheManager.set ([] : CacheState Nat) "k" 7 1 10) "k" 99999).2.find?
      (fun kv => kv.1 = "k")) = none := by
  refine ⟨(cache_ttl_lifecycle [] "k" 7 10 11).1 (by decide),
    (cache_ttl_lifecycle [] "k" 7 10 20).2.1 (by decide),
    ((cache_ttl_lifecycle [] "k" 7 10 99999).2.2 1 (by decide)).1,
    ((cache_ttl_lifecycle [] "k" 7 10 99999).2.2 1 (by decide)).2⟩

end NbaAgent
